import Mathlib

/-
Verification of the Jenkins-Sentinel Agent Manager (app/services/agent_manager.py,
app/utils/log_analyzer.py, app/models/build.py) against its natural-language
specification.  The relevant Python code is shallowly embedded below:
Python dicts become association lists, datetime values become Nat tick counts
(timedelta(days = d) becomes d * 86400 ticks), Python float fields that no
claim computes with (confidence, success_rate) become Rat, and external
collaborators (the Jenkins server, Bedrock) are modelled as succeeding.
Python built-in hash of a string is modelled by the string itself (a
deterministic stand-in; no claim depends on the numeric hash value).
-/

-- ============================================================
-- Data model (app/models/build.py)
-- ============================================================

/-- One entry of BuildAnalysis.error_patterns: a dict with a pattern string
and an optional type tag (absent type is read back with default "unknown"). -/
structure ErrorPattern where
  pattern : String
  etype : Option String := none
  deriving DecidableEq

/-- BuildInfo from app/models/build.py (fields the agent manager reads). -/
structure BuildInfo where
  job_name : String
  build_number : Nat
  result : String
  timestamp : Nat
  duration : Int
  parameters : List (String × String)
  console_log : Option String := none
  deriving DecidableEq

/-- BuildAnalysis from app/models/build.py (fields the agent manager reads;
last_success and differences are never read by agent_manager.py and are
omitted). -/
structure BuildAnalysis where
  build_info : BuildInfo
  error_patterns : List ErrorPattern
  recommendations : List String := []
  severity : String
  confidence : Rat := 1
  timestamp : Nat
  deriving DecidableEq

-- ============================================================
-- Pattern records (the dict shapes built by agent_manager.py)
-- ============================================================

/-- One entry of a failure record context list (agent_manager.py lines 541-546). -/
structure FailCtx where
  build_number : Nat
  timestamp : Nat
  parameters : List (String × String)
  duration : Int
  deriving DecidableEq

/-- One entry of a parameter diff, from compare_build_parameters
(agent_manager.py lines 727-741): the three dict shapes
added/removed/changed with their old and new values. -/
inductive DiffEntry where
  | added (new : String)
  | removed (old : String)
  | changed (old new : String)
  deriving DecidableEq

/-- Solution dicts built by derive_initial_solution and
correlate_failure_with_success. -/
inductive Solution where
  | retry (max_retries : Nat) (reason : String)
  | parameter_adjust (parameters : List (String × String)) (reason : String)
  | notification (message : String) (reason : String)
  deriving DecidableEq

/-- A failure pattern dict (type == "failure", agent_manager.py lines 552-568). -/
structure FailureRec where
  pattern : String
  frequency : Nat
  last_seen : Nat
  severity : String
  confidence : Rat
  error_type : String
  contexts : List FailCtx
  solution : Option Solution
  deriving DecidableEq

/-- A success pattern dict (type == "success", agent_manager.py lines 492-505). -/
structure SuccessRec where
  pattern : String
  indicator : String
  frequency : Nat
  last_seen : Nat
  success_rate : Rat
  build_params : List (String × String)
  environment : List (String × String)
  duration_min : Int
  duration_max : Int
  deriving DecidableEq

/-- A correlation pattern dict (type == "correlation", agent_manager.py
lines 705-719). -/
structure CorrelationRec where
  pattern : String
  frequency : Nat
  last_seen : Nat
  parameter_changes : List (String × DiffEntry)
  success_build : Nat
  failure_build : Nat
  solution : Solution
  deriving DecidableEq

/-- A pattern dict produced by the bulk extract_patterns pass
(agent_manager.py lines 337-342); these dicts carry no type key. -/
structure ExtractedRec where
  pattern : String
  frequency : Nat
  last_seen : Nat
  solution : Option Solution
  deriving DecidableEq

/-- The union of dict shapes stored in one job entry of pattern_database. -/
inductive PatternRecord where
  | failure (r : FailureRec)
  | success (r : SuccessRec)
  | correlation (r : CorrelationRec)
  | extracted (r : ExtractedRec)
  deriving DecidableEq

/-- The pattern key field shared by every record shape. -/
def PatternRecord.patternKey : PatternRecord → String
  | .failure r => r.pattern
  | .success r => r.pattern
  | .correlation r => r.pattern
  | .extracted r => r.pattern

/-- The last_seen field shared by every record shape. -/
def PatternRecord.lastSeen : PatternRecord → Nat
  | .failure r => r.last_seen
  | .success r => r.last_seen
  | .correlation r => r.last_seen
  | .extracted r => r.last_seen

-- ============================================================
-- Small helpers mirroring Python built-ins
-- ============================================================

/-- Python dict lookup d.get(k) on a string-valued dict. -/
def lookupStr (m : List (String × String)) (k : String) : Option String :=
  (m.find? (fun kv => kv.1 == k)).map (fun kv => kv.2)

/-- Python slicing l[-n:]. -/
def pyTakeLast {α : Type} (n : Nat) (l : List α) : List α :=
  l.drop (l.length - n)

/-- Lexicographic strictly-less comparison of char lists by code point,
with a proper prefix comparing less (Python string comparison). -/
def pyCharsLt : List Char → List Char → Bool
  | [], [] => false
  | [], _ :: _ => true
  | _ :: _, [] => false
  | a :: as, b :: bs =>
      if a < b then true else if b < a then false else pyCharsLt as bs

/-- Python strict comparison a < b on strings. -/
def pyStrLt (a b : String) : Bool :=
  pyCharsLt a.data b.data

/-- Python max(a, b) on two strings: lexicographic comparison by code point,
returning the second argument only when it is strictly greater. -/
def pyStrMax (a b : String) : String :=
  if pyStrLt a b then b else a

/-- Substring membership over char lists (Python "sub in s"). -/
def charsHaveSub (sub : List Char) : List Char → Bool
  | [] => sub.isEmpty
  | c :: cs => sub.isPrefixOf (c :: cs) || charsHaveSub sub cs

/-- Python "sub in s" on strings. -/
def strContains (s sub : String) : Bool :=
  charsHaveSub sub.data s.data

/-- Python str.lower, over the char list (ASCII case folding). -/
def pyToLower (s : String) : String :=
  String.mk (s.data.map Char.toLower)

/-- Python str.replace with a one-char pattern, over the char list. -/
def pyReplaceChar (s : String) (old new : Char) : String :=
  String.mk (s.data.map (fun c => if c = old then new else c))

/-- Python str.startswith, over the char lists. -/
def pyStartsWith (s pre : String) : Bool :=
  pre.data.isPrefixOf s.data

/-- timedelta(days = d), with one tick per second. -/
def timedeltaDays (d : Nat) : Nat := d * 86400

-- ============================================================
-- pattern_matches / match_known_patterns (agent_manager.py 223-229, 380-386)
-- ============================================================

/-- pattern_matches: does any error pattern of the analysis equal the
pattern key of the record (exact string equality)?  The record type tag is
not consulted. -/
def pattern_matches (p : PatternRecord) (a : BuildAnalysis) : Bool :=
  a.error_patterns.any (fun e => e.pattern == p.patternKey)

/-- match_known_patterns restricted to one job entry of pattern_database:
every stored record that pattern_matches the analysis, in store order. -/
def match_known_patterns (recs : List PatternRecord) (a : BuildAnalysis) : List PatternRecord :=
  recs.filter (fun p => pattern_matches p a)

-- ============================================================
-- cleanup_patterns (agent_manager.py 352-359)
-- ============================================================

/-- cleanup_patterns for one job entry: keep a record iff
now - last_seen < timedelta(days = 30). -/
def cleanup_patterns (now : Nat) (recs : List PatternRecord) : List PatternRecord :=
  recs.filter (fun p => decide (now - p.lastSeen < timedeltaDays 30))

-- ============================================================
-- derive_initial_solution (agent_manager.py 639-676)
-- ============================================================

/-- derive_initial_solution: static rule table keyed on the error type and
on substrings of the lowercased pattern text. -/
def derive_initial_solution (ep : ErrorPattern) : Option Solution :=
  let error_type := ep.etype.getD "unknown"
  let pat := ep.pattern
  if error_type == "test_failure" then
    some (Solution.retry 2 "Test failures often resolve on retry")
  else if error_type == "dependency_issue" then
    some (Solution.parameter_adjust [("clean_dependencies", "true")] "Clean dependency cache and retry")
  else if error_type == "compilation_error" then
    some (Solution.notification ("Compilation error detected: " ++ pat) "Code changes needed, notify development team")
  else if strContains (pyToLower pat) "timeout" then
    some (Solution.parameter_adjust [("timeout", "1800")] "Increase timeout for long-running builds")
  else if strContains (pyToLower pat) "out of memory" || strContains (pyToLower pat) "oom" then
    some (Solution.parameter_adjust [("memory", "4g")] "Increase memory allocation")
  else none

-- ============================================================
-- update_failure_patterns (agent_manager.py 509-580)
-- ============================================================

/-- The context entry appended on every failure observation
(agent_manager.py 541-546 and 561-566). -/
def mkContextEntry (a : BuildAnalysis) : FailCtx :=
  { build_number := a.build_info.build_number
    timestamp := a.timestamp
    parameters := a.build_info.parameters
    duration := a.build_info.duration }

/-- Is this record a failure record with the given pattern key? -/
def isFailKey (k : String) : PatternRecord → Bool
  | .failure r => r.pattern == k
  | _ => false

/-- Does the job entry already hold a failure record with this key?
(the linear scan of agent_manager.py 522-527). -/
def hasFailure (recs : List PatternRecord) (k : String) : Bool :=
  recs.any (isFailKey k)

/-- In-place update of the first failure record with the given key,
leaving every other record untouched (position preserved). -/
def updFirstFail (k : String) (f : FailureRec → FailureRec) : List PatternRecord → List PatternRecord
  | [] => []
  | .failure fr :: rest =>
      if fr.pattern == k then .failure (f fr) :: rest
      else .failure fr :: updFirstFail k f rest
  | r :: rest => r :: updFirstFail k f rest

/-- The existing-record branch of update_failure_patterns (lines 529-549):
bump frequency, refresh last_seen, severity := Python max of the two
severity strings, append a context entry and keep only the last 10. -/
def bump_failure (a : BuildAnalysis) (now : Nat) (fr : FailureRec) : FailureRec :=
  { fr with
    frequency := fr.frequency + 1
    last_seen := now
    severity := pyStrMax fr.severity a.severity
    contexts := pyTakeLast 10 (fr.contexts ++ [mkContextEntry a]) }

/-- The new-record branch of update_failure_patterns (lines 551-575). -/
def new_failure_record (a : BuildAnalysis) (ep : ErrorPattern) (now : Nat) : FailureRec :=
  { pattern := ep.pattern
    frequency := 1
    last_seen := now
    severity := a.severity
    confidence := a.confidence
    error_type := ep.etype.getD "unknown"
    contexts := [mkContextEntry a]
    solution := derive_initial_solution ep }

/-- Processing of one entry of analysis.error_patterns by
update_failure_patterns. -/
def updateOneFailurePattern (a : BuildAnalysis) (now : Nat) (recs : List PatternRecord) (ep : ErrorPattern) : List PatternRecord :=
  if hasFailure recs ep.pattern then
    updFirstFail ep.pattern (bump_failure a now) recs
  else
    recs ++ [.failure (new_failure_record a ep now)]

-- ============================================================
-- compare_build_parameters / correlate_failure_with_success
-- (agent_manager.py 678-741)
-- ============================================================

/-- compare_build_parameters: per-key diff of the failing build parameters
(current) against the successful build parameters. -/
def compare_build_parameters (current_params success_params : List (String × String)) : List (String × DiffEntry) :=
  let curKeys := current_params.map Prod.fst
  let all_keys := (curKeys ++ (success_params.map Prod.fst).filter (fun k => !curKeys.contains k)).eraseDups
  all_keys.filterMap (fun k =>
    match lookupStr current_params k, lookupStr success_params k with
    | none, some v => some (k, DiffEntry.removed v)
    | some v, none => some (k, DiffEntry.added v)
    | some cv, some sv => if cv != sv then some (k, DiffEntry.changed sv cv) else none
    | none, none => none)

/-- Insertion step for sorting diff items by key. -/
def insertByKey (p : String × DiffEntry) : List (String × DiffEntry) → List (String × DiffEntry)
  | [] => [p]
  | q :: qs => if pyStrLt p.1 q.1 then p :: q :: qs else q :: insertByKey p qs

/-- Python sorted(param_diff.items()): sort the diff items by key. -/
def sortByKey (l : List (String × DiffEntry)) : List (String × DiffEntry) :=
  l.foldr insertByKey []

/-- Rendering of one diff entry, used by the hash stand-in. -/
def diffEntryStr : DiffEntry → String
  | .added n => "added:None->" ++ n
  | .removed o => "removed:" ++ o ++ "->None"
  | .changed o n => "changed:" ++ o ++ "->" ++ n

/-- Stand-in for hash(str(sorted(param_diff.items()))): a deterministic
string of the sorted diff (no claim depends on the hash value itself). -/
def strOfDiff (l : List (String × DiffEntry)) : String :=
  String.intercalate ";" (l.map (fun p => p.1 ++ "=" ++ diffEntryStr p.2))

/-- The keys classified as changed, each mapped to its old (successful
build) value: the dict comprehension of agent_manager.py line 715-716. -/
def changedOldParams (diff : List (String × DiffEntry)) : List (String × String) :=
  diff.filterMap (fun p =>
    match p.2 with
    | DiffEntry.changed old _ => some (p.1, old)
    | _ => none)

/-- Python max(successes, key = build_number): first element with the
strictly greatest build number, none on an empty list. -/
def pyMaxByBuild : List BuildAnalysis → Option BuildAnalysis
  | [] => none
  | x :: xs => some (xs.foldl (fun b c =>
      if c.build_info.build_number > b.build_info.build_number then c else b) x)

/-- The scan of the analysis cache for prior successful builds of the same
job (agent_manager.py 683-695): cache keys are the "job#number" strings. -/
def findLatestSuccess (cache : List (String × BuildAnalysis)) (a : BuildAnalysis) : Option BuildAnalysis :=
  pyMaxByBuild ((cache.filter (fun kv =>
    pyStartsWith kv.1 (a.build_info.job_name ++ "#") &&
    kv.2.build_info.result == "SUCCESS" &&
    kv.2.build_info.build_number < a.build_info.build_number)).map Prod.snd)

/-- correlate_failure_with_success for one job entry: diff against the
most recent prior successful cached build and, when the diff is non-empty,
append one correlation record whose solution reverts every changed key. -/
def correlate_failure_with_success (cache : List (String × BuildAnalysis)) (a : BuildAnalysis) (now : Nat) (recs : List PatternRecord) : List PatternRecord :=
  match findLatestSuccess cache a with
  | none => recs
  | some latest_success =>
    let param_diff := compare_build_parameters a.build_info.parameters latest_success.build_info.parameters
    if param_diff.isEmpty then recs
    else recs ++ [PatternRecord.correlation {
      pattern := "param_change_" ++ strOfDiff (sortByKey param_diff)
      frequency := 1
      last_seen := now
      parameter_changes := param_diff
      success_build := latest_success.build_info.build_number
      failure_build := a.build_info.build_number
      solution := Solution.parameter_adjust (changedOldParams param_diff)
        "Revert parameter changes that may have caused failure" }]

/-- update_failure_patterns for one job entry: process every error pattern
in order, then attempt the correlation step. -/
def update_failure_patterns (cache : List (String × BuildAnalysis)) (a : BuildAnalysis) (now : Nat) (recs : List PatternRecord) : List PatternRecord :=
  correlate_failure_with_success cache a now
    (a.error_patterns.foldl (updateOneFailurePattern a now) recs)

-- ============================================================
-- update_success_patterns (agent_manager.py 465-507, 582-637)
-- ============================================================

/-- One success indicator dict from extract_success_indicators. -/
structure SuccessIndicator where
  pattern : String
  itype : String
  environment : List (String × String) := []
  deriving DecidableEq

/-- Rendering of the stable-parameter items, the stand-in for
hash(str(sorted(param_indicators.items()))). -/
def strOfPairs (l : List (String × String)) : String :=
  String.intercalate ";" (l.map (fun p => p.1 ++ "=" ++ p.2))

/-- extract_log_success_indicators: literal success phrases matched
case-insensitively as substrings of the console log. -/
def extract_log_success_indicators (console_log : String) : List SuccessIndicator :=
  (["BUILD SUCCESSFUL",
    "Tests run: .* Failures: 0",
    "All tests passed",
    "Compilation successful",
    "No errors found"]).filterMap (fun p =>
      if strContains (pyToLower console_log) (pyToLower p) then
        some { pattern := "log_success_" ++ pyToLower (pyReplaceChar p ' ' '_')
               itype := "log_indicator" }
      else none)

/-- extract_success_indicators: stable-parameter fingerprint, duration
bucket and literal log phrases, in that order.  The stable parameter names
are already alphabetically ordered, so Python sorted() keeps their order. -/
def extract_success_indicators (a : BuildAnalysis) : List SuccessIndicator :=
  let param_indicators := (["branch", "environment", "version"]).filterMap
    (fun p => (lookupStr a.build_info.parameters p).map (fun v => (p, v)))
  let l1 := if param_indicators.isEmpty then [] else
    [{ pattern := "stable_params_" ++ strOfPairs param_indicators
       itype := "parameters"
       environment := param_indicators }]
  let l2 := if a.build_info.duration != 0 then
    [{ pattern := if a.build_info.duration < 300 then "timing_fast" else "timing_normal"
       itype := "timing" }]
    else []
  let l3 := match a.build_info.console_log with
    | some log => if log != "" then extract_log_success_indicators log else []
    | none => []
  l1 ++ l2 ++ l3

/-- Is this record a success record with the given indicator value?
(the dedup scan of agent_manager.py 478-483 matches on the indicator key). -/
def isSuccInd (k : String) : PatternRecord → Bool
  | .success r => r.indicator == k
  | _ => false

/-- Does the job entry already hold a success record with this indicator? -/
def hasSuccess (recs : List PatternRecord) (k : String) : Bool :=
  recs.any (isSuccInd k)

/-- In-place update of the first success record with the given indicator. -/
def updFirstSucc (k : String) (f : SuccessRec → SuccessRec) : List PatternRecord → List PatternRecord
  | [] => []
  | .success sr :: rest =>
      if sr.indicator == k then .success (f sr) :: rest
      else .success sr :: updFirstSucc k f rest
  | r :: rest => r :: updFirstSucc k f rest

/-- The existing-record branch of update_success_patterns (lines 485-489). -/
def bump_success (now : Nat) (sr : SuccessRec) : SuccessRec :=
  { sr with
    frequency := sr.frequency + 1
    last_seen := now
    success_rate := min 1 (sr.success_rate + 1/10) }

/-- The new-record branch of update_success_patterns (lines 490-505):
pattern and indicator are both set to the indicator pattern string. -/
def new_success_record (a : BuildAnalysis) (ind : SuccessIndicator) (now : Nat) : SuccessRec :=
  { pattern := ind.pattern
    indicator := ind.pattern
    frequency := 1
    last_seen := now
    success_rate := 9/10
    build_params := a.build_info.parameters
    environment := ind.environment
    duration_min := a.build_info.duration
    duration_max := a.build_info.duration }

/-- Processing of one success indicator by update_success_patterns. -/
def updateOneSuccessPattern (a : BuildAnalysis) (now : Nat) (recs : List PatternRecord) (ind : SuccessIndicator) : List PatternRecord :=
  if hasSuccess recs ind.pattern then
    updFirstSucc ind.pattern (bump_success now) recs
  else
    recs ++ [.success (new_success_record a ind now)]

/-- update_success_patterns for one job entry. -/
def update_success_patterns (a : BuildAnalysis) (now : Nat) (recs : List PatternRecord) : List PatternRecord :=
  (extract_success_indicators a).foldl (updateOneSuccessPattern a now) recs

-- ============================================================
-- extract_patterns (agent_manager.py 322-350)
-- ============================================================

/-- One counting step of the error_counts dict:
error_counts[key] = error_counts.get(key, 0) + 1, preserving dict
insertion order. -/
def bumpCount (m : List (String × Nat)) (k : String) : List (String × Nat) :=
  if m.any (fun kv => kv.1 == k) then
    m.map (fun kv => if kv.1 == k then (kv.1, kv.2 + 1) else kv)
  else m ++ [(k, 1)]

/-- The error_counts dict over a batch of analyses: every occurrence of
every error pattern string is counted. -/
def errorCounts (analyses : List BuildAnalysis) : List (String × Nat) :=
  analyses.foldl (fun m a => a.error_patterns.foldl (fun m2 e => bumpCount m2 e.pattern) m) []

/-- derive_solution (agent_manager.py 346-350): a placeholder that always
returns None. -/
def derive_solution (_pattern : String) (_analyses : List BuildAnalysis) : Option Solution :=
  none

/-- The promotion loop of extract_patterns: every counted pattern string
whose aggregate count reaches 3 becomes a record with frequency equal to
that count. -/
def promoteCounts (analyses : List BuildAnalysis) (now : Nat) (m : List (String × Nat)) : List ExtractedRec :=
  m.filterMap (fun kv =>
    if 3 ≤ kv.2 then
      some { pattern := kv.1, frequency := kv.2, last_seen := now
             solution := derive_solution kv.1 analyses }
    else none)

/-- extract_patterns: promote every pattern string whose aggregate count
across the batch reaches 3, with frequency equal to that count. -/
def extract_patterns (analyses : List BuildAnalysis) (now : Nat) : List ExtractedRec :=
  promoteCounts analyses now (errorCounts analyses)

-- ============================================================
-- analyze_and_act / learn_from_build branch structure
-- (agent_manager.py 117-138, 211-221)
-- ============================================================

/-- learn_from_build restricted to one job entry: success patterns on the
exact string SUCCESS, failure patterns otherwise. -/
def learn_from_build (cache : List (String × BuildAnalysis)) (a : BuildAnalysis) (now : Nat) (recs : List PatternRecord) : List PatternRecord :=
  if a.build_info.result == "SUCCESS" then update_success_patterns a now recs
  else update_failure_patterns cache a now recs

/-- The decision structure of analyze_and_act on one job entry: the first
component records whether handle_failure is invoked (result different from
the exact string SUCCESS), the second is the pattern store after the
learning step (learning_enabled defaults to True and is passed here). -/
def analyze_and_act (learning_enabled : Bool) (cache : List (String × BuildAnalysis)) (a : BuildAnalysis) (now : Nat) (recs : List PatternRecord) : Bool × List PatternRecord :=
  (a.build_info.result != "SUCCESS",
   if learning_enabled then learn_from_build cache a now recs else recs)

-- ============================================================
-- Store observations used by the claims
-- ============================================================

/-- The first failure record with the given key, if any. -/
def failRecFor (recs : List PatternRecord) (k : String) : Option FailureRec :=
  recs.findSome? (fun r =>
    match r with
    | .failure fr => if fr.pattern == k then some fr else none
    | _ => none)

/-- Number of failure records with the given pattern key. -/
def countFail (recs : List PatternRecord) (k : String) : Nat :=
  recs.countP (isFailKey k)

/-- Is this record a success record with the given pattern key? -/
def isSuccKey (k : String) : PatternRecord → Bool
  | .success r => r.pattern == k
  | _ => false

/-- Number of success records with the given pattern key. -/
def countSuccPat (recs : List PatternRecord) (k : String) : Nat :=
  recs.countP (isSuccKey k)

/-- Number of success records with the given indicator value. -/
def countSuccInd (recs : List PatternRecord) (k : String) : Nat :=
  recs.countP (isSuccInd k)

/-- Frequency of the first failure record with the given key, 0 if absent. -/
def failFreqD (recs : List PatternRecord) (k : String) : Nat :=
  ((failRecFor recs k).map FailureRec.frequency).getD 0

/-- Count stored under a key of the error_counts dict, 0 if absent. -/
def lookupCount (m : List (String × Nat)) (k : String) : Nat :=
  ((m.find? (fun kv => kv.1 == k)).map Prod.snd).getD 0

/-- Total number of occurrences of a pattern string across all error
patterns of a batch of analyses. -/
def totalPatternCount (analyses : List BuildAnalysis) (s : String) : Nat :=
  (analyses.map (fun a => (a.error_patterns.map ErrorPattern.pattern).count s)).sum

-- ============================================================
-- Pattern-store operation model (the operations of §4.4 as they act on
-- one job entry of pattern_database)
-- ============================================================

/-- One pattern-store operation on a job entry: recordFailure
(update_failure_patterns with the ambient analysis cache), recordSuccess
(update_success_patterns), the hourly batch refresh of
update_pattern_database (extend with extract_patterns output), and the
pruning pass (cleanup_patterns). -/
inductive StoreOp where
  | recordFailure (cache : List (String × BuildAnalysis)) (a : BuildAnalysis) (now : Nat)
  | recordSuccess (a : BuildAnalysis) (now : Nat)
  | refresh (analyses : List BuildAnalysis) (now : Nat)
  | cleanup (now : Nat)

/-- Effect of one store operation on a job entry. -/
def applyOp (recs : List PatternRecord) : StoreOp → List PatternRecord
  | .recordFailure cache a now => update_failure_patterns cache a now recs
  | .recordSuccess a now => update_success_patterns a now recs
  | .refresh analyses now => recs ++ (extract_patterns analyses now).map PatternRecord.extracted
  | .cleanup now => cleanup_patterns now recs

/-- A job entry after a sequence of store operations from the empty entry. -/
def applyOps (ops : List StoreOp) : List PatternRecord :=
  ops.foldl applyOp []

/-- One recordFailure invocation: the analysis, the ambient analysis cache
and the wall-clock instant. -/
structure RFOp where
  cache : List (String × BuildAnalysis)
  a : BuildAnalysis
  now : Nat

/-- Effect of one recordFailure invocation on a job entry. -/
def applyRF (recs : List PatternRecord) (op : RFOp) : List PatternRecord :=
  update_failure_patterns op.cache op.a op.now recs

/-- The context entries a list of error patterns inserts for one key. -/
def ctxsOfEps (k : String) (a : BuildAnalysis) (eps : List ErrorPattern) : List FailCtx :=
  eps.filterMap (fun ep => if ep.pattern == k then some (mkContextEntry a) else none)

/-- The context entries one recordFailure invocation inserts for one key. -/
def ctxsOf (k : String) (a : BuildAnalysis) : List FailCtx :=
  ctxsOfEps k a a.error_patterns

/-- Full insertion history of context entries for one key across a
sequence of recordFailure invocations, in insertion order. -/
def ctxHistory (k : String) (ops : List RFOp) : List FailCtx :=
  (ops.map (fun op => ctxsOf k op.a)).flatten

/-- One insertion into the bounded context list: create a singleton on
first observation, else append and keep the last 10. -/
def ctxStep (c : FailCtx) : Option (List FailCtx) → Option (List FailCtx)
  | none => some [c]
  | some l => some (pyTakeLast 10 (l ++ [c]))

/-- Expected context list after a given insertion history: absent with no
history, else the most recent 10 entries. -/
def ctxsFold (h : List FailCtx) : Option (List FailCtx) :=
  match h with
  | [] => none
  | _ => some (pyTakeLast 10 h)

/-- The store invariant: per pattern key at most one failure record and at
most one success record by indicator, with every success record keyed by
its own indicator string. -/
def StoreInv (recs : List PatternRecord) : Prop :=
  (∀ k, countFail recs k ≤ 1) ∧ (∀ k, countSuccInd recs k ≤ 1) ∧
  (∀ sr : SuccessRec, PatternRecord.success sr ∈ recs → sr.indicator = sr.pattern)

-- ============================================================
-- Concrete inputs used by counterexamples and witnesses
-- ============================================================

/-- A failing analysis listing the error pattern boom twice. -/
def c8DupAnalysis : BuildAnalysis :=
  { build_info := { job_name := "jobD", build_number := 4, result := "FAILURE"
                    timestamp := 1, duration := 1, parameters := [] }
    error_patterns := [{ pattern := "boom" }, { pattern := "boom" }]
    severity := "LOW", timestamp := 1 }

/-- A failing analysis listing the error pattern boom exactly once. -/
def c8OnceAnalysis : BuildAnalysis :=
  { build_info := { job_name := "jobD", build_number := 5, result := "FAILURE"
                    timestamp := 2, duration := 1, parameters := [] }
    error_patterns := [{ pattern := "boom" }]
    severity := "LOW", timestamp := 2 }

/-- The i-th repeat failure observation of the pattern p on job jobE. -/
def c7Op (i : Nat) : RFOp :=
  { cache := []
    a := { build_info := { job_name := "jobE", build_number := i, result := "FAILURE"
                           timestamp := i, duration := 1, parameters := [] }
           error_patterns := [{ pattern := "p" }]
           severity := "LOW", timestamp := i }
    now := i }

/-- Twelve repeat observations of the same failure pattern. -/
def c7Ops : List RFOp := (List.range 12).map (fun i => c7Op (i + 1))

/-- The context entry recorded by the i-th observation of c7Ops. -/
def c7Ctx (i : Nat) : FailCtx :=
  { build_number := i, timestamp := i, parameters := [], duration := 1 }

/-- The failure record expected after the twelve observations of c7Ops:
contexts hold only the ten most recent entries (observations 3 to 12). -/
def c7FinalRec : FailureRec :=
  { pattern := "p", frequency := 12, last_seen := 12, severity := "LOW"
    confidence := 1, error_type := "unknown"
    contexts := (List.range 10).map (fun i => c7Ctx (i + 3))
    solution := none }

/-- A stored failure record with severity HIGH for key boom. -/
def c1HighRec : FailureRec :=
  { pattern := "boom", frequency := 3, last_seen := 1, severity := "HIGH"
    confidence := 1, error_type := "unknown", contexts := [], solution := none }

/-- A failing analysis with severity MEDIUM whose only error pattern is boom. -/
def c1MedAnalysis : BuildAnalysis :=
  { build_info := { job_name := "jobA", build_number := 7, result := "FAILURE"
                    timestamp := 4, duration := 100, parameters := [] }
    error_patterns := [{ pattern := "boom" }]
    severity := "MEDIUM", timestamp := 4 }

/-- A failure record last seen at tick 0. -/
def c3Rec : FailureRec :=
  { pattern := "p", frequency := 1, last_seen := 0, severity := "LOW"
    confidence := 1, error_type := "unknown", contexts := [], solution := none }

/-- A stored success record whose pattern key is timing_fast. -/
def c5SuccRec : SuccessRec :=
  { pattern := "timing_fast", indicator := "timing_fast", frequency := 2
    last_seen := 0, success_rate := 1, build_params := [], environment := []
    duration_min := 100, duration_max := 100 }

/-- A failing analysis whose only error pattern is the string timing_fast. -/
def c5Analysis : BuildAnalysis :=
  { build_info := { job_name := "jobA", build_number := 9, result := "FAILURE"
                    timestamp := 5, duration := 50, parameters := [] }
    error_patterns := [{ pattern := "timing_fast" }]
    severity := "LOW", timestamp := 5 }

/-- A successful build of job build-x with parameters env=prod, branch=main. -/
def c6SuccessAnalysis : BuildAnalysis :=
  { build_info := { job_name := "build-x", build_number := 1, result := "SUCCESS"
                    timestamp := 1, duration := 100
                    parameters := [("env", "prod"), ("branch", "main")] }
    error_patterns := []
    severity := "LOW", timestamp := 1 }

/-- A later failing build of job build-x with parameters env=staging,
branch=main. -/
def c6FailAnalysis : BuildAnalysis :=
  { build_info := { job_name := "build-x", build_number := 2, result := "FAILURE"
                    timestamp := 2, duration := 100
                    parameters := [("env", "staging"), ("branch", "main")] }
    error_patterns := [{ pattern := "boom" }]
    severity := "HIGH", timestamp := 2 }

/-- An analysis cache holding the successful build under its build key. -/
def c6Cache : List (String × BuildAnalysis) := [("build-x#1", c6SuccessAnalysis)]

/-- Batch analysis number i of job jobC with the given error patterns. -/
def c9Mk (i : Nat) (eps : List ErrorPattern) : BuildAnalysis :=
  { build_info := { job_name := "jobC", build_number := i, result := "FAILURE"
                    timestamp := i, duration := 1, parameters := [] }
    error_patterns := eps
    severity := "LOW", timestamp := i }

/-- Three distinct analyses sharing the error pattern boom once each;
the pattern rare appears only once in the whole batch. -/
def c9Batch : List BuildAnalysis :=
  [c9Mk 1 [{ pattern := "boom" }, { pattern := "rare" }],
   c9Mk 2 [{ pattern := "boom" }],
   c9Mk 3 [{ pattern := "boom" }]]

/-- Three distinct analyses that each list the error pattern boom twice. -/
def c9DupBatch : List BuildAnalysis :=
  [c9Mk 1 [{ pattern := "boom" }, { pattern := "boom" }],
   c9Mk 2 [{ pattern := "boom" }, { pattern := "boom" }],
   c9Mk 3 [{ pattern := "boom" }, { pattern := "boom" }]]

/-- An analysis with result UNSTABLE. -/
def c10Unstable : BuildAnalysis :=
  { build_info := { job_name := "jobB", build_number := 3, result := "UNSTABLE"
                    timestamp := 2, duration := 10, parameters := [] }
    error_patterns := [{ pattern := "flaky" }]
    severity := "LOW", timestamp := 2 }

-- ============================================================
-- log_analyzer.analyze_test_failures (app/utils/log_analyzer.py 37-63)
-- ============================================================

/-- A Python value held in the failed_tests list: the analyzer appends
plain strings (and possibly None from the Maven pattern), while
handle_test_failures expects dicts with package and name keys. -/
inductive PyTest where
  | str (s : String)
  | pynone
  | dict (package : Option String) (name : Option String)
  deriving DecidableEq

/-- Python exception kinds surfaced by the embedded code. -/
inductive PyErr where
  | attributeError
  | typeError
  deriving DecidableEq

/-- Strip a literal from the front of the char stream. -/
def matchLit : List Char → List Char → Option (List Char)
  | [], cs => some cs
  | _, [] => none
  | l :: ls, c :: cs => if c = l then matchLit ls cs else none

/-- Maximal run of chars satisfying a class (greedy quantifier over a
char class followed by a disjoint continuation). -/
def takeRun (p : Char → Bool) : List Char → List Char × List Char
  | [] => ([], [])
  | c :: cs =>
    if p c then
      let r := takeRun p cs
      (c :: r.1, r.2)
    else ([], c :: cs)

/-- Numeric value of a digit run. -/
def natOfDigits (ds : List Char) : Nat :=
  ds.foldl (fun n c => n * 10 + (c.toNat - 48)) 0

/-- The char class of the regex fragment that matches word chars and dots. -/
def isWordDot (c : Char) : Bool :=
  c.isAlpha || c.isDigit || c = '_' || c = '.'

/-- Python regex whitespace class. -/
def isPySpace (c : Char) : Bool :=
  c = ' ' || c = '\t' || c = '\n' || c = '\r' || c = '\x0b' || c = '\x0c'

/-- Match the JUnit result line pattern at the current position,
returning the Failures, Errors and Skipped counts and the rest. -/
def matchJUnitAt (cs : List Char) : Option (Nat × Nat × Nat × List Char) :=
  match matchLit "Tests run: ".data cs with
  | none => none
  | some r1 =>
    let d1 := takeRun Char.isDigit r1
    if d1.1.isEmpty then none else
    match matchLit ", Failures: ".data d1.2 with
    | none => none
    | some r2 =>
      let d2 := takeRun Char.isDigit r2
      if d2.1.isEmpty then none else
      match matchLit ", Errors: ".data d2.2 with
      | none => none
      | some r3 =>
        let d3 := takeRun Char.isDigit r3
        if d3.1.isEmpty then none else
        match matchLit ", Skipped: ".data d3.2 with
        | none => none
        | some r4 =>
          let d4 := takeRun Char.isDigit r4
          if d4.1.isEmpty then none else
          some (natOfDigits d2.1, natOfDigits d3.1, natOfDigits d4.1, d4.2)

/-- finditer for the JUnit pattern: left to right, non-overlapping,
resuming after each match end; fuel is the stream length. -/
def scanJUnit : Nat → List Char → List (Nat × Nat × Nat)
  | 0, _ => []
  | _, [] => []
  | fuel + 1, c :: cs =>
    match matchJUnitAt (c :: cs) with
    | some r => (r.1, r.2.1, r.2.2.1) :: scanJUnit fuel r.2.2.2
    | none => scanJUnit fuel cs

/-- Match the simple test failure pattern at the current position: the
literal FAIL: followed by a non-empty run of word chars and dots
(the captured group). -/
def matchFailAt (cs : List Char) : Option (String × List Char) :=
  match matchLit "FAIL: ".data cs with
  | none => none
  | some r1 =>
    let w := takeRun isWordDot r1
    if w.1.isEmpty then none else some (String.mk w.1, w.2)

/-- finditer for the simple test failure pattern. -/
def scanFail : Nat → List Char → List String
  | 0, _ => []
  | _, [] => []
  | fuel + 1, c :: cs =>
    match matchFailAt (c :: cs) with
    | some r => r.1 :: scanFail fuel r.2
    | none => scanFail fuel cs

/-- One repetition of the Maven pattern group: a newline, one or more
whitespace chars, then one or more word chars and dots. -/
def matchMavenRep (cs : List Char) : Option (List Char × List Char) :=
  match cs with
  | '\n' :: r1 =>
    let sp := takeRun isPySpace r1
    if sp.1.isEmpty then none else
    let w := takeRun isWordDot sp.2
    if w.1.isEmpty then none else
    some ('\n' :: (sp.1 ++ w.1), w.2)
  | _ => none

/-- Greedy repetition of the Maven group; the captured group is the last
repetition, None with zero repetitions. -/
def matchMavenReps : Nat → List Char → Option (List Char) × List Char
  | 0, cs => (none, cs)
  | fuel + 1, cs =>
    match matchMavenRep cs with
    | none => (none, cs)
    | some r =>
      match matchMavenReps fuel r.2 with
      | (none, rest2) => (some r.1, rest2)
      | (some g2, rest2) => (some g2, rest2)

/-- Match the Maven failed-tests pattern at the current position,
returning the captured group (possibly None) and the rest. -/
def matchMavenAt (fuel : Nat) (cs : List Char) : Option (Option String × List Char) :=
  match matchLit "Failed tests:".data cs with
  | none => none
  | some r1 =>
    let g := matchMavenReps fuel r1
    some (g.1.map String.mk, g.2)

/-- finditer for the Maven failed-tests pattern. -/
def scanMaven : Nat → List Char → List (Option String)
  | 0, _ => []
  | _, [] => []
  | fuel + 1, c :: cs =>
    match matchMavenAt (fuel + 1) (c :: cs) with
    | some r => r.1 :: scanMaven fuel r.2
    | none => scanMaven fuel cs

/-- The test_results dict of analyze_test_failures. -/
structure TestResults where
  failed_tests : List PyTest
  error_count : Nat
  failure_count : Nat
  skipped_count : Nat
  deriving DecidableEq

/-- analyze_test_failures: JUnit matches feed the counters; the simple
and Maven patterns append their captured group to failed_tests, so every
entry of failed_tests is a plain string (or None), never a dict. -/
def analyze_test_failures (log : String) : TestResults :=
  let cs := log.data
  let junit := scanJUnit cs.length cs
  let fails := scanFail cs.length cs
  let mavens := scanMaven cs.length cs
  { failed_tests := fails.map PyTest.str ++
      mavens.map (fun g => match g with | some s => PyTest.str s | none => PyTest.pynone)
    failure_count := (junit.map (fun t => t.1)).sum
    error_count := (junit.map (fun t => t.2.1)).sum
    skipped_count := (junit.map (fun t => t.2.2)).sum }

-- ============================================================
-- handle_test_failures and the issue handlers (agent_manager.py 388-451)
-- ============================================================

/-- Python test.get("package", "unknown"): attribute error on a
non-dict value (strings and None have no get method). -/
def PyTest.getPackage : PyTest → Except PyErr String
  | .dict pkg _ => .ok (pkg.getD "unknown")
  | .str _ => .error .attributeError
  | .pynone => .error .attributeError

/-- Python str-interpolation of test.get("name"): None renders as None. -/
def PyTest.getNameStr : PyTest → Except PyErr String
  | .dict _ (some s) => .ok s
  | .dict _ none => .ok "None"
  | .str _ => .error .attributeError
  | .pynone => .error .attributeError

/-- failure_groups[group].append(test), preserving dict insertion order. -/
def addToGroup (gs : List (String × List PyTest)) (g : String) (t : PyTest) :
    List (String × List PyTest) :=
  if gs.any (fun kv => kv.1 == g) then
    gs.map (fun kv => if kv.1 == g then (kv.1, kv.2 ++ [t]) else kv)
  else gs ++ [(g, [t])]

/-- handle_test_failures: group the failed tests by package, then emit
one environmental action per package with more than 3 failures and one
action per test otherwise.  External helper calls
(check_test_environment, analyze_test_failure) only log. -/
def handle_test_failures (test_results : TestResults) : Except PyErr String := do
  let failed_tests := test_results.failed_tests
  if failed_tests.isEmpty then
    return "No test failures to handle"
  let groups ← failed_tests.foldlM (fun gs t => do
      let g ← t.getPackage
      pure (addToGroup gs g t)) ([] : List (String × List PyTest))
  let actions ← groups.foldlM (fun (acc : List String) kv => do
      if kv.2.length > 3 then
        pure (acc ++ ["Multiple failures in " ++ kv.1 ++ " - checking environment"])
      else
        kv.2.foldlM (fun acc2 t => do
            let n ← t.getNameStr
            pure (acc2 ++ ["Analyzing failure in " ++ n])) acc) ([] : List String)
  return String.intercalate "; " actions

/-- An issue dict as read by the dependency and compilation handlers. -/
structure Issue where
  itype : Option String := none
  name : Option String := none
  version : Option String := none
  resolution : Option String := none
  file : Option String := none
  message : Option String := none
  deriving DecidableEq

/-- Python str-interpolation of a possibly absent dict value. -/
def pyStrOpt : Option String → String
  | some s => s
  | none => "None"

/-- Python truthiness of an optional string. -/
def pyTruthy : Option String → Bool
  | some s => s != ""
  | none => false

/-- handle_dependency_issues (agent_manager.py 416-434). -/
def handle_dependency_issues (issues : List Issue) : String :=
  let actions := issues.foldl (fun acc issue =>
    if issue.itype == some "missing" then
      let acc2 := acc ++ ["Missing dependency: " ++ pyStrOpt issue.name]
      if pyTruthy issue.version then
        acc2 ++ ["Attempting to install version " ++ pyStrOpt issue.version]
      else acc2
    else if issue.itype == some "version_conflict" then
      let acc2 := acc ++ ["Version conflict in " ++ pyStrOpt issue.name]
      if pyTruthy issue.resolution then
        acc2 ++ ["Suggested resolution: " ++ pyStrOpt issue.resolution]
      else acc2
    else acc) []
  if actions.isEmpty then "No dependency issues to handle"
  else String.intercalate "; " actions

/-- handle_compilation_issues (agent_manager.py 436-451). -/
def handle_compilation_issues (issues : List Issue) : String :=
  let actions := issues.foldl (fun acc issue =>
    let issue_type := issue.itype.getD "unknown"
    if issue_type == "syntax_error" then
      acc ++ ["Syntax error in " ++ pyStrOpt issue.file ++ ": " ++ pyStrOpt issue.message]
    else if issue_type == "type_error" then
      acc ++ ["Type error: " ++ pyStrOpt issue.message]
    else if issue_type == "import_error" then
      acc ++ ["Import error: " ++ pyStrOpt issue.message]
    else acc) []
  if actions.isEmpty then "No compilation issues to handle"
  else String.intercalate "; " actions

-- ============================================================
-- handle_failure (agent_manager.py 140-209, 231-297)
-- ============================================================

/-- One entry of the per-build action ledger (action_history).  The
structured details payloads stored under the details key are not read by
any claim and are not modelled. -/
structure ActionRec where
  atype : String
  timestamp : Nat
  pattern : Option String := none
  action : Option String := none
  result : Option String := none
  deriving DecidableEq

/-- The solution attached to a stored record; success dicts carry no
solution key, correlation dicts always carry one. -/
def PatternRecord.solutionOf : PatternRecord → Option Solution
  | .failure r => r.solution
  | .success _ => none
  | .correlation r => some r.solution
  | .extracted r => r.solution

/-- The type string of a solution dict. -/
def solutionTypeStr : Solution → String
  | .retry _ _ => "retry"
  | .parameter_adjust _ _ => "parameter_adjust"
  | .notification _ _ => "notification"

/-- apply_known_solution with the Jenkins trigger calls modelled as
succeeding: returns the recorded ledger entries and the action string.
The Python repr of the adjustments dict is modelled by strOfPairs. -/
def apply_known_solution (p : PatternRecord) (now : Nat) : List ActionRec × String :=
  match p.solutionOf with
  | none => ([], "No known solution")
  | some sol =>
    let result := match sol with
      | .retry _ _ => "Build retried"
      | .parameter_adjust params _ =>
          "Build retried with adjusted parameters: " ++ strOfPairs params
      | .notification _ _ => "Team notified"
    ([{ atype := solutionTypeStr sol, timestamp := now
        pattern := some p.patternKey, result := some result }], result)

/-- Python float interpolation of the confidence value (stand-in). -/
def ratStr (q : Rat) : String :=
  toString q.num ++ "/" ++ toString q.den

/-- handle_failure: pattern-match pass, then the log analyzers, then one
ledger entry per non-empty issue category, then the build description.
The dependency and compilation analyzers are LogInspector collaborators
passed as functions; analyze_build_time is called in the source but its
result is never read and it is omitted.  A raised exception aborts the
remaining passes, returning the ledger written so far (analyze_and_act
catches it one level up). -/
def handle_failure (dep comp : String → List Issue) (recs : List PatternRecord)
    (a : BuildAnalysis) (now : Nat) : List ActionRec × Except PyErr String :=
  let matched := match_known_patterns recs a
  let step1 := matched.foldl (fun (st : List ActionRec × List String) m =>
      let r := apply_known_solution m now
      (st.1 ++ r.1 ++ [{ atype := "pattern_match", timestamp := now
                         pattern := some m.patternKey, action := some r.2 }],
       st.2 ++ [r.2])) ([], [])
  match a.build_info.console_log with
  | none => (step1.1, Except.error PyErr.typeError)
  | some log =>
    let test_results := analyze_test_failures log
    let dependency_issues := dep log
    let compilation_issues := comp log
    match (if test_results.failed_tests.isEmpty then Except.ok none
           else (handle_test_failures test_results).map some) with
    | Except.error e => (step1.1, Except.error e)
    | Except.ok optAction =>
      let step2 := match optAction with
        | some act => (step1.1 ++ [{ atype := "test_failure", timestamp := now
                                     action := some act }], step1.2 ++ [act])
        | none => (step1.1, step1.2)
      let step3 := if dependency_issues.isEmpty then step2 else
        (step2.1 ++ [{ atype := "dependency_issue", timestamp := now
                       action := some (handle_dependency_issues dependency_issues) }],
         step2.2 ++ [handle_dependency_issues dependency_issues])
      let step4 := if compilation_issues.isEmpty then step3 else
        (step3.1 ++ [{ atype := "compilation_issue", timestamp := now
                       action := some (handle_compilation_issues compilation_issues) }],
         step3.2 ++ [handle_compilation_issues compilation_issues])
      let description := "Build Analysis Report:\n- Severity: " ++ a.severity
        ++ "\n- Confidence: " ++ ratStr a.confidence
        ++ "\n- Actions Taken: " ++ String.intercalate ", " step4.2
        ++ "\n- Recommendations: " ++ String.intercalate ", " a.recommendations
      (step4.1, Except.ok description)

/-- A console log with four failing tests, all in package pkg.A. -/
def c4Log : String :=
  "FAIL: pkg.A.t1\nFAIL: pkg.A.t2\nFAIL: pkg.A.t3\nFAIL: pkg.A.t4"

/-- A stored failure record matching the analysis error pattern. -/
def c4StoredRec : FailureRec :=
  { pattern := "known boom", frequency := 2, last_seen := 0, severity := "HIGH"
    confidence := 1, error_type := "unknown", contexts := [], solution := none }

/-- A failing analysis whose console log is c4Log and whose error pattern
matches the stored record. -/
def c4Analysis : BuildAnalysis :=
  { build_info := { job_name := "jobF", build_number := 6, result := "FAILURE"
                    timestamp := 3, duration := 9, parameters := []
                    console_log := some c4Log }
    error_patterns := [{ pattern := "known boom" }]
    severity := "HIGH", timestamp := 3 }

/-- Four dict-shaped tests in package pkg.A, the shape
handle_test_failures was written for. -/
def c4DictTests : TestResults :=
  { failed_tests := [PyTest.dict (some "pkg.A") (some "t1"),
                     PyTest.dict (some "pkg.A") (some "t2"),
                     PyTest.dict (some "pkg.A") (some "t3"),
                     PyTest.dict (some "pkg.A") (some "t4")]
    error_count := 0, failure_count := 0, skipped_count := 0 }

-- ============================================================
-- Theorems
-- ============================================================

/-- C1: the claim states that update_failure_patterns raises the severity
of an existing matching failure record to the maximum of old and new under
HIGH > MEDIUM > LOW, so an existing HIGH is never lowered.  The code uses
Python max on the severity strings, which compares lexicographically, and
under that comparison MEDIUM > LOW > HIGH.  At the failing input (stored
record with severity HIGH, incoming analysis with severity MEDIUM) the
record severity becomes MEDIUM: the intended maximum is HIGH. -/
theorem C1_severity_lexicographic_bug :
    (failRecFor
      (update_failure_patterns [] c1MedAnalysis 5 [PatternRecord.failure c1HighRec])
      "boom").map FailureRec.severity = some "MEDIUM" := by
  decide

/-- C3 counterexample: a record whose last_seen is exactly 30 days old is
removed by cleanup_patterns, while the claim states it is retained. -/
theorem C3_boundary_counterexample :
    cleanup_patterns (timedeltaDays 30) [PatternRecord.failure c3Rec] = [] := by
  decide

/-- C3 as amended: cleanup_patterns removes a stored record if and only if
now - last_seen is at least 30 days; in particular a record whose
last_seen is exactly 30 days old is removed (the boundary is exclusive,
not inclusive as claimed). -/
theorem C3_prune_iff (now : Nat) (recs : List PatternRecord) (r : PatternRecord)
    (hr : r ∈ recs) :
    r ∉ cleanup_patterns now recs ↔ timedeltaDays 30 ≤ now - r.lastSeen := by
  simp [cleanup_patterns, List.mem_filter, hr, Nat.not_lt]

/-- C3 witness: a record 31 days old is in the store and is removed by the
pruning pass. -/
theorem C3_prune_iff_witness :
    PatternRecord.failure c3Rec ∉
      cleanup_patterns (timedeltaDays 31) [PatternRecord.failure c3Rec] :=
  (C3_prune_iff (timedeltaDays 31) [PatternRecord.failure c3Rec]
    (PatternRecord.failure c3Rec) (by decide)).mpr (by decide)

/-- C5 counterexample: a stored Success record whose pattern key equals an
error pattern of the analysis is returned by match_known_patterns, while
the claim states Success records are never returned. -/
theorem C5_success_record_matched :
    match_known_patterns [PatternRecord.success c5SuccRec] c5Analysis
      = [PatternRecord.success c5SuccRec] := by
  decide

/-- C5 as amended: match_known_patterns returns exactly those stored
records, of any variant (failure, success, correlation or batch-extracted
alike), whose pattern key is string-equal to some error pattern of the
analysis; no record type filter is applied. -/
theorem C5_match_iff (recs : List PatternRecord) (a : BuildAnalysis) (p : PatternRecord) :
    p ∈ match_known_patterns recs a ↔
      p ∈ recs ∧ ∃ e ∈ a.error_patterns, e.pattern = p.patternKey := by
  simp [match_known_patterns, pattern_matches, List.mem_filter, List.any_eq_true]

/-- C10: every analysis whose result is any string other than the exact
string SUCCESS is routed to the failure-remediation path and learned as
failure patterns; only the exact string SUCCESS is learned as a success
pattern.  The branch does not test for the specific value FAILURE, so
UNSTABLE, ABORTED, IN_PROGRESS and UNKNOWN all take the failure path. -/
theorem C10_nonsuccess_failure_path (cache : List (String × BuildAnalysis))
    (a : BuildAnalysis) (now : Nat) (recs : List PatternRecord) :
    (a.build_info.result ≠ "SUCCESS" →
      analyze_and_act true cache a now recs
        = (true, update_failure_patterns cache a now recs)) ∧
    (a.build_info.result = "SUCCESS" →
      analyze_and_act true cache a now recs
        = (false, update_success_patterns a now recs)) := by
  constructor
  · intro h
    simp [analyze_and_act, learn_from_build, h]
  · intro h
    simp [analyze_and_act, learn_from_build, h]

/-- C10 witness: an UNSTABLE build takes the failure path and is learned
as failure patterns. -/
theorem C10_nonsuccess_failure_path_witness :
    analyze_and_act true [] c10Unstable 2 []
      = (true, update_failure_patterns [] c10Unstable 2 []) :=
  (C10_nonsuccess_failure_path [] c10Unstable 2 []).1 (by decide)

-- ============================================================
-- Helper lemmas about the error_counts dict
-- ============================================================

/-- Lookup after one counting step: the bumped key gains one, every other
key is unchanged. -/
theorem lookupCount_bumpCount (m : List (String × Nat)) (k j : String) :
    lookupCount (bumpCount m k) j =
      if j = k then lookupCount m j + 1 else lookupCount m j := by
  by_cases h : m.any (fun kv => kv.1 == k)
  · unfold bumpCount
    rw [if_pos h]
    have hpf : ((fun kv : String × Nat => kv.1 == j) ∘
          fun kv => if kv.1 == k then (kv.1, kv.2 + 1) else kv)
        = fun kv : String × Nat => kv.1 == j := by
      funext kv
      by_cases hk : (kv.1 == k) = true <;> simp [Function.comp, hk]
    simp only [lookupCount, List.find?_map, hpf]
    by_cases hj : j = k
    · subst hj
      rcases List.any_eq_true.mp h with ⟨kv0, hkv0, hp⟩
      have hsome : (List.find? (fun kv : String × Nat => kv.1 == j) m).isSome := by
        rw [List.find?_isSome]
        exact ⟨kv0, hkv0, hp⟩
      rcases Option.isSome_iff_exists.mp hsome with ⟨kv1, hkv1⟩
      have hp1 : kv1.1 = j := by
        have h2 := List.find?_some hkv1
        simpa using h2
      rw [hkv1]
      simp [hp1]
    · rw [if_neg hj]
      cases hfind : List.find? (fun kv : String × Nat => kv.1 == j) m with
      | none => simp [hfind]
      | some kv1 =>
        have hp1 : kv1.1 = j := by
          have h2 := List.find?_some hfind
          simpa using h2
        have hk1 : (kv1.1 == k) = false := by
          rw [beq_eq_false_iff_ne, hp1]
          exact hj
        simp [hfind, hp1, hj]
  · unfold bumpCount
    rw [if_neg h]
    rw [Bool.not_eq_true] at h
    have habs : ∀ kv ∈ m, ¬(kv.1 == k) = true := List.any_eq_false.mp h
    simp only [lookupCount, List.find?_append]
    by_cases hj : j = k
    · subst hj
      have hnone : List.find? (fun kv : String × Nat => kv.1 == j) m = none := by
        rw [List.find?_eq_none]
        exact habs
      rw [hnone, if_pos rfl]
      simp [List.find?_cons]
    · rw [if_neg hj]
      have hsingle : List.find? (fun kv : String × Nat => kv.1 == j) [(k, 1)] = none := by
        have hkj : (k == j) = false := beq_eq_false_iff_ne.mpr (fun hc => hj hc.symm)
        simp [List.find?_cons, hkj]
      rw [hsingle]
      cases hfind : List.find? (fun kv : String × Nat => kv.1 == j) m with
      | none => simp
      | some kv1 => simp

/-- One counting step preserves the key list when the key is present and
appends exactly the new key otherwise, so nodup keys are preserved. -/
theorem keys_nodup_bumpCount (m : List (String × Nat)) (k : String)
    (hnd : (m.map Prod.fst).Nodup) : ((bumpCount m k).map Prod.fst).Nodup := by
  by_cases h : m.any (fun kv => kv.1 == k)
  · unfold bumpCount
    rw [if_pos h]
    have hkeys : (m.map (fun kv => if kv.1 == k then (kv.1, kv.2 + 1) else kv)).map Prod.fst
        = m.map Prod.fst := by
      rw [List.map_map]
      apply List.map_congr_left
      intro kv _
      by_cases hk : (kv.1 == k) = true <;> simp [Function.comp, hk]
    rw [hkeys]
    exact hnd
  · unfold bumpCount
    rw [if_neg h]
    rw [Bool.not_eq_true] at h
    have habs : ∀ kv ∈ m, ¬(kv.1 == k) = true := List.any_eq_false.mp h
    rw [List.map_append, List.nodup_append]
    refine ⟨hnd, by simp, ?_⟩
    intro x hx hxk
    rcases List.mem_map.mp hx with ⟨kv, hkv, hfst⟩
    have hxk2 : x = k := by simpa using hxk
    exact habs kv hkv (by rw [beq_iff_eq, hfst, hxk2])

/-- Counting a list of error patterns adds the per-string occurrence count
to every key. -/
theorem lookupCount_foldl_eps (eps : List ErrorPattern) (m : List (String × Nat)) (j : String) :
    lookupCount (eps.foldl (fun m2 e => bumpCount m2 e.pattern) m) j
      = lookupCount m j + (eps.map ErrorPattern.pattern).count j := by
  induction eps generalizing m with
  | nil => simp
  | cons e eps ih =>
    rw [List.foldl_cons, ih, lookupCount_bumpCount, List.map_cons, List.count_cons]
    by_cases hj : j = e.pattern
    · simp only [hj, if_pos rfl, beq_self_eq_true, if_true]
      omega
    · have hb : (e.pattern == j) = false := by
        rw [beq_eq_false_iff_ne]
        exact fun hc => hj hc.symm
      simp only [if_neg hj, hb, if_neg Bool.false_ne_true]
      omega

/-- Counting preserves nodup keys across a list of error patterns. -/
theorem keys_nodup_foldl_eps (eps : List ErrorPattern) (m : List (String × Nat))
    (hnd : (m.map Prod.fst).Nodup) :
    (((eps.foldl (fun m2 e => bumpCount m2 e.pattern) m)).map Prod.fst).Nodup := by
  induction eps generalizing m with
  | nil => simpa
  | cons e eps ih => exact ih _ (keys_nodup_bumpCount m e.pattern hnd)

/-- Counting preserves nodup keys across a batch of analyses. -/
theorem keys_nodup_foldl_analyses (as : List BuildAnalysis) (m : List (String × Nat))
    (hnd : (m.map Prod.fst).Nodup) :
    ((as.foldl (fun m2 a => a.error_patterns.foldl (fun m3 e => bumpCount m3 e.pattern) m2) m).map Prod.fst).Nodup := by
  induction as generalizing m with
  | nil => simpa
  | cons a as ih => exact ih _ (keys_nodup_foldl_eps _ _ hnd)

/-- The error_counts dict over a batch stores exactly the aggregate
occurrence count of every pattern string, on top of the initial counts. -/
theorem lookupCount_foldl_analyses (as : List BuildAnalysis) (m : List (String × Nat)) (j : String) :
    lookupCount (as.foldl (fun m2 a => a.error_patterns.foldl (fun m3 e => bumpCount m3 e.pattern) m2) m) j
      = lookupCount m j + totalPatternCount as j := by
  induction as generalizing m with
  | nil => simp [totalPatternCount]
  | cons a as ih =>
    rw [List.foldl_cons, ih, lookupCount_foldl_eps]
    simp only [totalPatternCount, List.map_cons, List.sum_cons]
    omega

/-- errorCounts stores exactly the aggregate occurrence counts. -/
theorem lookupCount_errorCounts (as : List BuildAnalysis) (j : String) :
    lookupCount (errorCounts as) j = totalPatternCount as j := by
  unfold errorCounts
  rw [lookupCount_foldl_analyses]
  simp [lookupCount]

/-- errorCounts has nodup keys. -/
theorem keys_nodup_errorCounts (as : List BuildAnalysis) :
    ((errorCounts as).map Prod.fst).Nodup := by
  unfold errorCounts
  exact keys_nodup_foldl_analyses as [] (by simp)

/-- A key absent from the dict looks up to 0. -/
theorem lookupCount_eq_zero_of_not_mem (m : List (String × Nat)) (j : String)
    (h : j ∉ m.map Prod.fst) : lookupCount m j = 0 := by
  have hnone : List.find? (fun kv => kv.1 == j) m = none := by
    rw [List.find?_eq_none]
    intro kv hkv hp
    exact h (List.mem_map.mpr ⟨kv, hkv, beq_iff_eq.mp hp⟩)
  simp [lookupCount, hnone]

/-- The promoted records with a given pattern string: exactly one when the
count reaches 3, none otherwise. -/
theorem filter_promoteCounts (analyses : List BuildAnalysis) (now : Nat)
    (m : List (String × Nat)) (s : String) (hnd : (m.map Prod.fst).Nodup) :
    (promoteCounts analyses now m).filter (fun r => r.pattern == s)
      = if 3 ≤ lookupCount m s then
          [{ pattern := s, frequency := lookupCount m s, last_seen := now
             solution := derive_solution s analyses }]
        else [] := by
  induction m with
  | nil => simp [promoteCounts, lookupCount]
  | cons kv m ih =>
    obtain ⟨a, b⟩ := kv
    have hnd2 := List.nodup_cons.mp (by simpa only [List.map_cons] using hnd)
    by_cases ha : a = s
    · subst ha
      have hz : lookupCount m a = 0 := lookupCount_eq_zero_of_not_mem m a hnd2.1
      have hcons : lookupCount ((a, b) :: m) a = b := by
        simp [lookupCount, List.find?_cons]
      have htail : (promoteCounts analyses now m).filter (fun r => r.pattern == a) = [] := by
        rw [ih hnd2.2, hz, if_neg (by omega)]
      rw [hcons]
      by_cases hb : 3 ≤ b
      · have hsplit : promoteCounts analyses now ((a, b) :: m)
            = { pattern := a, frequency := b, last_seen := now
                solution := derive_solution a analyses } :: promoteCounts analyses now m := by
          simp [promoteCounts, List.filterMap_cons, hb]
        rw [hsplit, if_pos hb]
        simp [List.filter_cons, htail]
      · have hsplit : promoteCounts analyses now ((a, b) :: m)
            = promoteCounts analyses now m := by
          simp [promoteCounts, List.filterMap_cons, hb]
        rw [hsplit, htail, if_neg hb]
    · have hbeq : (a == s) = false := beq_eq_false_iff_ne.mpr ha
      have hcons : lookupCount ((a, b) :: m) s = lookupCount m s := by
        simp [lookupCount, List.find?_cons, hbeq]
      rw [hcons]
      by_cases hb : 3 ≤ b
      · have hsplit : promoteCounts analyses now ((a, b) :: m)
            = { pattern := a, frequency := b, last_seen := now
                solution := derive_solution a analyses } :: promoteCounts analyses now m := by
          simp [promoteCounts, List.filterMap_cons, hb]
        have hfilter : ((ExtractedRec.mk a b now (derive_solution a analyses))
            :: promoteCounts analyses now m).filter (fun r => r.pattern == s)
            = (promoteCounts analyses now m).filter (fun r => r.pattern == s) := by
          simp [List.filter_cons, hbeq]
        rw [hsplit, hfilter]
        exact ih hnd2.2
      · have hsplit : promoteCounts analyses now ((a, b) :: m)
            = promoteCounts analyses now m := by
          simp [promoteCounts, List.filterMap_cons, hb]
        rw [hsplit]
        exact ih hnd2.2

-- ============================================================
-- C6 and C9
-- ============================================================

/-- C6: when the analysis cache holds a prior successful build of the same
job and the parameter diff against the most recent such build is
non-empty, correlate_failure_with_success appends exactly one new
correlation record, and the parameter map of its solution holds exactly
the keys classified as changed, each mapped to its value in the
successful build (keys equal in both builds, and keys only added or only
removed, do not appear). -/
theorem C6_correlation_reverts_changed (cache : List (String × BuildAnalysis))
    (a : BuildAnalysis) (now : Nat) (recs : List PatternRecord) (best : BuildAnalysis)
    (k v : String)
    (h1 : findLatestSuccess cache a = some best)
    (h2 : compare_build_parameters a.build_info.parameters best.build_info.parameters ≠ []) :
    (∃ cr : CorrelationRec,
      correlate_failure_with_success cache a now recs
        = recs ++ [PatternRecord.correlation cr] ∧
      cr.solution = Solution.parameter_adjust
        (changedOldParams (compare_build_parameters a.build_info.parameters best.build_info.parameters))
        "Revert parameter changes that may have caused failure") ∧
    ((k, v) ∈ changedOldParams (compare_build_parameters a.build_info.parameters best.build_info.parameters)
      ↔ ∃ nv, (k, DiffEntry.changed v nv)
            ∈ compare_build_parameters a.build_info.parameters best.build_info.parameters) := by
  constructor
  · have hne : (compare_build_parameters a.build_info.parameters best.build_info.parameters).isEmpty = false := by
      rw [List.isEmpty_eq_false]
      exact h2
    have key : correlate_failure_with_success cache a now recs
        = recs ++ [PatternRecord.correlation {
            pattern := "param_change_" ++ strOfDiff (sortByKey
              (compare_build_parameters a.build_info.parameters best.build_info.parameters))
            frequency := 1
            last_seen := now
            parameter_changes := compare_build_parameters a.build_info.parameters best.build_info.parameters
            success_build := best.build_info.build_number
            failure_build := a.build_info.build_number
            solution := Solution.parameter_adjust
              (changedOldParams (compare_build_parameters a.build_info.parameters best.build_info.parameters))
              "Revert parameter changes that may have caused failure" }] := by
      unfold correlate_failure_with_success
      rw [h1]
      simp [hne]
    exact ⟨_, key, rfl⟩
  · unfold changedOldParams
    constructor
    · intro hm
      rcases List.mem_filterMap.mp hm with ⟨p, hpe, hf⟩
      obtain ⟨k2, e⟩ := p
      cases e with
      | added n => simp at hf
      | removed o => simp at hf
      | changed o n =>
        simp only [Option.some.injEq, Prod.mk.injEq] at hf
        exact ⟨n, by rw [← hf.1, ← hf.2]; exact hpe⟩
    · rintro ⟨nv, hmem⟩
      exact List.mem_filterMap.mpr ⟨(k, DiffEntry.changed v nv), hmem, rfl⟩

/-- C6 witness: with the successful build parameters env=prod, branch=main
and the failing build parameters env=staging, branch=main, exactly one
correlation record is appended, its solution proposes env=prod, and
branch does not appear in the solution parameter map. -/
theorem C6_correlation_reverts_changed_witness :
    (∃ cr : CorrelationRec,
      correlate_failure_with_success c6Cache c6FailAnalysis 3 []
        = [PatternRecord.correlation cr] ∧
      cr.solution = Solution.parameter_adjust [("env", "prod")]
        "Revert parameter changes that may have caused failure") ∧
    "branch" ∉ (changedOldParams (compare_build_parameters
      c6FailAnalysis.build_info.parameters c6SuccessAnalysis.build_info.parameters)).map Prod.fst := by
  have h := C6_correlation_reverts_changed c6Cache c6FailAnalysis 3 [] c6SuccessAnalysis
    "env" "prod" (by decide) (by decide)
  refine ⟨?_, by decide⟩
  rcases h.1 with ⟨cr, he, hs⟩
  exact ⟨cr, by simpa using he, hs.trans (by decide)⟩

/-- C9 counterexample: a batch of 3 distinct analyses of one job that all
share the error_patterns[0].pattern string boom, but list it twice each,
is promoted with frequency 6, not frequency N = 3 as the claim states. -/
theorem C9_duplicate_counterexample :
    (extract_patterns c9DupBatch 0).map (fun r => (r.pattern, r.frequency)) = [("boom", 6)] ∧
    ¬ ∃ r ∈ extract_patterns c9DupBatch 0, r.pattern = "boom" ∧ r.frequency = c9DupBatch.length := by
  constructor
  · decide
  · decide

/-- C9 as amended: for a batch of N at least 3 analyses of one job in
which the string s occurs exactly once among each analysis error
patterns, one batch extraction pass promotes exactly one record for s,
with frequency equal to the aggregate occurrence count, here N; and a
string whose aggregate count across the batch is below 3 is not promoted.
(The frequency equals N only because each analysis contributes the string
exactly once: the code counts every occurrence across all error
patterns.) -/
theorem C9_batch_promotion (as : List BuildAnalysis) (s t : String) (now : Nat)
    (h1 : ∀ a ∈ as, (a.error_patterns.map ErrorPattern.pattern).count s = 1)
    (h3 : 3 ≤ as.length)
    (ht : totalPatternCount as t < 3) :
    (extract_patterns as now).filter (fun r => r.pattern == s)
      = [{ pattern := s, frequency := as.length, last_seen := now, solution := none }] ∧
    (extract_patterns as now).filter (fun r => r.pattern == t) = [] := by
  have hs : totalPatternCount as s = as.length := by
    unfold totalPatternCount
    rw [List.map_congr_left h1, List.map_const', List.sum_replicate, smul_eq_mul, mul_one]
  constructor
  · rw [extract_patterns, filter_promoteCounts as now _ s (keys_nodup_errorCounts as),
      lookupCount_errorCounts, hs, if_pos h3]
    rfl
  · rw [extract_patterns, filter_promoteCounts as now _ t (keys_nodup_errorCounts as),
      lookupCount_errorCounts, if_neg (by omega)]

/-- C9 witness: a batch of three distinct analyses each containing boom
exactly once promotes exactly one record for boom with frequency 3, and
the string rare, seen only once in the batch, is not promoted. -/
theorem C9_batch_promotion_witness :
    (extract_patterns c9Batch 4).filter (fun r => r.pattern == "boom")
      = [{ pattern := "boom", frequency := c9Batch.length, last_seen := 4, solution := none }] ∧
    (extract_patterns c9Batch 4).filter (fun r => r.pattern == "rare") = [] :=
  C9_batch_promotion c9Batch "boom" "rare" 4 (by decide) (by decide) (by decide)

-- ============================================================
-- Helper lemmas about updFirstFail / updFirstSucc and record counts
-- ============================================================

/-- In-place update of the first matching failure record preserves any
count whose predicate is invariant under the update function. -/
theorem countP_updFirstFail (k : String) (f : FailureRec → FailureRec)
    (p : PatternRecord → Bool)
    (hf : ∀ fr : FailureRec, p (.failure (f fr)) = p (.failure fr)) :
    ∀ recs : List PatternRecord, (updFirstFail k f recs).countP p = recs.countP p := by
  intro recs
  induction recs with
  | nil => rfl
  | cons r rest ih =>
    cases r with
    | failure fr =>
      by_cases hk : (fr.pattern == k) = true
      · simp [updFirstFail, hk, List.countP_cons, hf]
      · simp [updFirstFail, hk, List.countP_cons, ih]
    | success sr => simp [updFirstFail, List.countP_cons, ih]
    | correlation cr => simp [updFirstFail, List.countP_cons, ih]
    | extracted er => simp [updFirstFail, List.countP_cons, ih]

/-- In-place update of the first matching success record preserves any
count whose predicate is invariant under the update function. -/
theorem countP_updFirstSucc (k : String) (f : SuccessRec → SuccessRec)
    (p : PatternRecord → Bool)
    (hf : ∀ sr : SuccessRec, p (.success (f sr)) = p (.success sr)) :
    ∀ recs : List PatternRecord, (updFirstSucc k f recs).countP p = recs.countP p := by
  intro recs
  induction recs with
  | nil => rfl
  | cons r rest ih =>
    cases r with
    | success sr =>
      by_cases hk : (sr.indicator == k) = true
      · simp [updFirstSucc, hk, List.countP_cons, hf]
      · simp [updFirstSucc, hk, List.countP_cons, ih]
    | failure fr => simp [updFirstSucc, List.countP_cons, ih]
    | correlation cr => simp [updFirstSucc, List.countP_cons, ih]
    | extracted er => simp [updFirstSucc, List.countP_cons, ih]

/-- Every record of the updated list is an original record or the update
image of an original failure record. -/
theorem mem_updFirstFail (k : String) (f : FailureRec → FailureRec) :
    ∀ recs : List PatternRecord, ∀ r ∈ updFirstFail k f recs,
      r ∈ recs ∨ ∃ fr : FailureRec, r = .failure (f fr) ∧ .failure fr ∈ recs := by
  intro recs
  induction recs with
  | nil => simp [updFirstFail]
  | cons r0 rest ih =>
    intro r hm
    cases r0 with
    | failure fr =>
      by_cases hk : (fr.pattern == k) = true
      · rcases List.mem_cons.mp (by simpa [updFirstFail, hk] using hm) with h1 | h2
        · exact Or.inr ⟨fr, h1, List.mem_cons_self _ _⟩
        · exact Or.inl (List.mem_cons_of_mem _ h2)
      · rcases List.mem_cons.mp (by simpa [updFirstFail, hk] using hm) with h1 | h2
        · exact Or.inl (h1 ▸ List.mem_cons_self _ _)
        · rcases ih r h2 with h3 | ⟨fr2, h4, h5⟩
          · exact Or.inl (List.mem_cons_of_mem _ h3)
          · exact Or.inr ⟨fr2, h4, List.mem_cons_of_mem _ h5⟩
    | success sr =>
      rcases List.mem_cons.mp (by simpa [updFirstFail] using hm) with h1 | h2
      · exact Or.inl (h1 ▸ List.mem_cons_self _ _)
      · rcases ih r h2 with h3 | ⟨fr2, h4, h5⟩
        · exact Or.inl (List.mem_cons_of_mem _ h3)
        · exact Or.inr ⟨fr2, h4, List.mem_cons_of_mem _ h5⟩
    | correlation cr =>
      rcases List.mem_cons.mp (by simpa [updFirstFail] using hm) with h1 | h2
      · exact Or.inl (h1 ▸ List.mem_cons_self _ _)
      · rcases ih r h2 with h3 | ⟨fr2, h4, h5⟩
        · exact Or.inl (List.mem_cons_of_mem _ h3)
        · exact Or.inr ⟨fr2, h4, List.mem_cons_of_mem _ h5⟩
    | extracted er =>
      rcases List.mem_cons.mp (by simpa [updFirstFail] using hm) with h1 | h2
      · exact Or.inl (h1 ▸ List.mem_cons_self _ _)
      · rcases ih r h2 with h3 | ⟨fr2, h4, h5⟩
        · exact Or.inl (List.mem_cons_of_mem _ h3)
        · exact Or.inr ⟨fr2, h4, List.mem_cons_of_mem _ h5⟩

/-- Every record of the updated list is an original record or the update
image of an original success record. -/
theorem mem_updFirstSucc (k : String) (f : SuccessRec → SuccessRec) :
    ∀ recs : List PatternRecord, ∀ r ∈ updFirstSucc k f recs,
      r ∈ recs ∨ ∃ sr : SuccessRec, r = .success (f sr) ∧ .success sr ∈ recs := by
  intro recs
  induction recs with
  | nil => simp [updFirstSucc]
  | cons r0 rest ih =>
    intro r hm
    cases r0 with
    | success sr =>
      by_cases hk : (sr.indicator == k) = true
      · rcases List.mem_cons.mp (by simpa [updFirstSucc, hk] using hm) with h1 | h2
        · exact Or.inr ⟨sr, h1, List.mem_cons_self _ _⟩
        · exact Or.inl (List.mem_cons_of_mem _ h2)
      · rcases List.mem_cons.mp (by simpa [updFirstSucc, hk] using hm) with h1 | h2
        · exact Or.inl (h1 ▸ List.mem_cons_self _ _)
        · rcases ih r h2 with h3 | ⟨sr2, h4, h5⟩
          · exact Or.inl (List.mem_cons_of_mem _ h3)
          · exact Or.inr ⟨sr2, h4, List.mem_cons_of_mem _ h5⟩
    | failure fr =>
      rcases List.mem_cons.mp (by simpa [updFirstSucc] using hm) with h1 | h2
      · exact Or.inl (h1 ▸ List.mem_cons_self _ _)
      · rcases ih r h2 with h3 | ⟨sr2, h4, h5⟩
        · exact Or.inl (List.mem_cons_of_mem _ h3)
        · exact Or.inr ⟨sr2, h4, List.mem_cons_of_mem _ h5⟩
    | correlation cr =>
      rcases List.mem_cons.mp (by simpa [updFirstSucc] using hm) with h1 | h2
      · exact Or.inl (h1 ▸ List.mem_cons_self _ _)
      · rcases ih r h2 with h3 | ⟨sr2, h4, h5⟩
        · exact Or.inl (List.mem_cons_of_mem _ h3)
        · exact Or.inr ⟨sr2, h4, List.mem_cons_of_mem _ h5⟩
    | extracted er =>
      rcases List.mem_cons.mp (by simpa [updFirstSucc] using hm) with h1 | h2
      · exact Or.inl (h1 ▸ List.mem_cons_self _ _)
      · rcases ih r h2 with h3 | ⟨sr2, h4, h5⟩
        · exact Or.inl (List.mem_cons_of_mem _ h3)
        · exact Or.inr ⟨sr2, h4, List.mem_cons_of_mem _ h5⟩

/-- The linear existence scan agrees with the failure count. -/
theorem hasFailure_iff (recs : List PatternRecord) (k : String) :
    hasFailure recs k = true ↔ 0 < countFail recs k := by
  rw [hasFailure, List.any_eq_true, countFail]
  exact List.countP_pos_iff.symm

/-- The linear existence scan agrees with the success count. -/
theorem hasSuccess_iff (recs : List PatternRecord) (k : String) :
    hasSuccess recs k = true ↔ 0 < countSuccInd recs k := by
  rw [hasSuccess, List.any_eq_true, countSuccInd]
  exact List.countP_pos_iff.symm

/-- Failure count after processing one error pattern: a fresh key gets one
record, an existing key keeps its count. -/
theorem countFail_updateOne (a : BuildAnalysis) (now : Nat) (recs : List PatternRecord)
    (ep : ErrorPattern) (k : String) :
    countFail (updateOneFailurePattern a now recs ep) k
      = if ep.pattern = k then (if countFail recs k = 0 then 1 else countFail recs k)
        else countFail recs k := by
  unfold updateOneFailurePattern
  by_cases h : hasFailure recs ep.pattern
  · rw [if_pos h]
    have hcount : countFail (updFirstFail ep.pattern (bump_failure a now) recs) k
        = countFail recs k :=
      countP_updFirstFail ep.pattern (bump_failure a now) (isFailKey k)
        (fun fr => by simp [isFailKey, bump_failure]) recs
    rw [hcount]
    by_cases hk : ep.pattern = k
    · have hpos : 0 < countFail recs k := by
        rw [← hk]
        exact (hasFailure_iff recs ep.pattern).mp h
      rw [if_pos hk, if_neg (by omega)]
    · rw [if_neg hk]
  · rw [if_neg h]
    have happ : countFail (recs ++ [PatternRecord.failure (new_failure_record a ep now)]) k
        = countFail recs k + (if ep.pattern = k then 1 else 0) := by
      simp only [countFail, List.countP_append]
      congr 1
      by_cases hk : ep.pattern = k
      · simp [isFailKey, new_failure_record, hk]
      · have hb : (ep.pattern == k) = false := beq_eq_false_iff_ne.mpr hk
        simp [isFailKey, new_failure_record, hb, hk]
    rw [happ]
    by_cases hk : ep.pattern = k
    · have hz : countFail recs k = 0 := by
        by_contra hnz
        exact h ((hasFailure_iff recs ep.pattern).mpr (by rw [hk]; omega))
      rw [if_pos hk, if_pos hk, hz, if_pos rfl]
    · rw [if_neg hk, if_neg hk, Nat.add_zero]

/-- Failure count after a whole recordFailure scan of the error patterns. -/
theorem countFail_foldl_eps (eps : List ErrorPattern) (a : BuildAnalysis) (now : Nat)
    (recs : List PatternRecord) (k : String) :
    countFail (eps.foldl (updateOneFailurePattern a now) recs) k
      = if k ∈ eps.map ErrorPattern.pattern then max (countFail recs k) 1
        else countFail recs k := by
  induction eps generalizing recs with
  | nil => simp
  | cons e eps ih =>
    rw [List.foldl_cons, ih, countFail_updateOne]
    by_cases he : e.pattern = k
    · have hmem : k ∈ (e :: eps).map ErrorPattern.pattern := by
        rw [List.map_cons]
        exact List.mem_cons.mpr (Or.inl he.symm)
      rw [if_pos he, if_pos hmem]
      by_cases hmem2 : k ∈ eps.map ErrorPattern.pattern
      · rw [if_pos hmem2]
        split <;> omega
      · rw [if_neg hmem2]
        split <;> omega
    · rw [if_neg he]
      have hiff : (k ∈ (e :: eps).map ErrorPattern.pattern) ↔ k ∈ eps.map ErrorPattern.pattern := by
        rw [List.map_cons, List.mem_cons]
        constructor
        · rintro (h1 | h2)
          · exact absurd h1.symm he
          · exact h2
        · exact Or.inr
      by_cases hmem2 : k ∈ eps.map ErrorPattern.pattern
      · rw [if_pos hmem2, if_pos (hiff.mpr hmem2)]
      · rw [if_neg hmem2, if_neg (fun hc => hmem2 (hiff.mp hc))]

/-- Success-indicator count after processing one success indicator. -/
theorem countSuccInd_updateOneSuccess (a : BuildAnalysis) (now : Nat)
    (recs : List PatternRecord) (ind : SuccessIndicator) (k : String) :
    countSuccInd (updateOneSuccessPattern a now recs ind) k
      = if ind.pattern = k then (if countSuccInd recs k = 0 then 1 else countSuccInd recs k)
        else countSuccInd recs k := by
  unfold updateOneSuccessPattern
  by_cases h : hasSuccess recs ind.pattern
  · rw [if_pos h]
    have hcount : countSuccInd (updFirstSucc ind.pattern (bump_success now) recs) k
        = countSuccInd recs k :=
      countP_updFirstSucc ind.pattern (bump_success now) (isSuccInd k)
        (fun sr => by simp [isSuccInd, bump_success]) recs
    rw [hcount]
    by_cases hk : ind.pattern = k
    · have hpos : 0 < countSuccInd recs k := by
        rw [← hk]
        exact (hasSuccess_iff recs ind.pattern).mp h
      rw [if_pos hk, if_neg (by omega)]
    · rw [if_neg hk]
  · rw [if_neg h]
    have happ : countSuccInd (recs ++ [PatternRecord.success (new_success_record a ind now)]) k
        = countSuccInd recs k + (if ind.pattern = k then 1 else 0) := by
      simp only [countSuccInd, List.countP_append]
      congr 1
      by_cases hk : ind.pattern = k
      · simp [isSuccInd, new_success_record, hk]
      · have hb : (ind.pattern == k) = false := beq_eq_false_iff_ne.mpr hk
        simp [isSuccInd, new_success_record, hb, hk]
    rw [happ]
    by_cases hk : ind.pattern = k
    · have hz : countSuccInd recs k = 0 := by
        by_contra hnz
        exact h ((hasSuccess_iff recs ind.pattern).mpr (by rw [hk]; omega))
      rw [if_pos hk, if_pos hk, hz, if_pos rfl]
    · rw [if_neg hk, if_neg hk, Nat.add_zero]

/-- Success-op processing never changes failure counts. -/
theorem countFail_updateOneSuccess (a : BuildAnalysis) (now : Nat)
    (recs : List PatternRecord) (ind : SuccessIndicator) (k : String) :
    countFail (updateOneSuccessPattern a now recs ind) k = countFail recs k := by
  unfold updateOneSuccessPattern
  by_cases h : hasSuccess recs ind.pattern
  · rw [if_pos h]
    exact countP_updFirstSucc ind.pattern (bump_success now) (isFailKey k)
      (fun sr => by simp [isFailKey]) recs
  · rw [if_neg h]
    simp [countFail, List.countP_append, isFailKey]

/-- Failure-op processing never changes success-indicator counts. -/
theorem countSuccInd_updateOneFailure (a : BuildAnalysis) (now : Nat)
    (recs : List PatternRecord) (ep : ErrorPattern) (k : String) :
    countSuccInd (updateOneFailurePattern a now recs ep) k = countSuccInd recs k := by
  unfold updateOneFailurePattern
  by_cases h : hasFailure recs ep.pattern
  · rw [if_pos h]
    exact countP_updFirstFail ep.pattern (bump_failure a now) (isSuccInd k)
      (fun fr => by simp [isSuccInd]) recs
  · rw [if_neg h]
    simp [countSuccInd, List.countP_append, isSuccInd]

/-- The correlation step never changes counts whose predicate rejects
correlation records. -/
theorem countP_correlate (cache : List (String × BuildAnalysis)) (a : BuildAnalysis)
    (now : Nat) (recs : List PatternRecord) (p : PatternRecord → Bool)
    (hp : ∀ cr : CorrelationRec, p (.correlation cr) = false) :
    (correlate_failure_with_success cache a now recs).countP p = recs.countP p := by
  unfold correlate_failure_with_success
  cases hfs : findLatestSuccess cache a with
  | none => rfl
  | some best =>
    by_cases hd : (compare_build_parameters a.build_info.parameters best.build_info.parameters).isEmpty = true
    · simp [hd]
    · rw [Bool.not_eq_true] at hd
      simp [hd, List.countP_append, hp]

/-- Records produced by the correlation step. -/
theorem mem_correlate (cache : List (String × BuildAnalysis)) (a : BuildAnalysis)
    (now : Nat) (recs : List PatternRecord) (r : PatternRecord)
    (hm : r ∈ correlate_failure_with_success cache a now recs) :
    r ∈ recs ∨ ∃ cr : CorrelationRec, r = .correlation cr := by
  unfold correlate_failure_with_success at hm
  cases hfs : findLatestSuccess cache a with
  | none =>
    rw [hfs] at hm
    exact Or.inl hm
  | some best =>
    rw [hfs] at hm
    by_cases hd : (compare_build_parameters a.build_info.parameters best.build_info.parameters).isEmpty = true
    · simp only [hd, if_true] at hm
      exact Or.inl hm
    · rw [Bool.not_eq_true] at hd
      simp only [hd, Bool.false_eq_true, if_false] at hm
      rcases List.mem_append.mp hm with h4 | h5
      · exact Or.inl h4
      · exact Or.inr ⟨_, by simpa using h5⟩

-- ============================================================
-- Preservation of the store invariant
-- ============================================================

/-- Processing one error pattern preserves the store invariant. -/
theorem storeInv_updateOneFailure (a : BuildAnalysis) (now : Nat)
    (recs : List PatternRecord) (ep : ErrorPattern) (h : StoreInv recs) :
    StoreInv (updateOneFailurePattern a now recs ep) := by
  obtain ⟨h1, h2, h3⟩ := h
  refine ⟨?_, ?_, ?_⟩
  · intro k
    rw [countFail_updateOne]
    by_cases he : ep.pattern = k
    · rw [if_pos he]
      have := h1 k
      split <;> omega
    · rw [if_neg he]
      exact h1 k
  · intro k
    rw [countSuccInd_updateOneFailure]
    exact h2 k
  · intro sr hm
    unfold updateOneFailurePattern at hm
    by_cases hh : hasFailure recs ep.pattern
    · rw [if_pos hh] at hm
      rcases mem_updFirstFail _ _ recs _ hm with h4 | ⟨fr, h5, _⟩
      · exact h3 sr h4
      · exact absurd h5 (by simp)
    · rw [if_neg hh] at hm
      rcases List.mem_append.mp hm with h4 | h5
      · exact h3 sr h4
      · simp at h5

/-- Processing one success indicator preserves the store invariant. -/
theorem storeInv_updateOneSuccess (a : BuildAnalysis) (now : Nat)
    (recs : List PatternRecord) (ind : SuccessIndicator) (h : StoreInv recs) :
    StoreInv (updateOneSuccessPattern a now recs ind) := by
  obtain ⟨h1, h2, h3⟩ := h
  refine ⟨?_, ?_, ?_⟩
  · intro k
    rw [countFail_updateOneSuccess]
    exact h1 k
  · intro k
    rw [countSuccInd_updateOneSuccess]
    by_cases he : ind.pattern = k
    · rw [if_pos he]
      have := h2 k
      split <;> omega
    · rw [if_neg he]
      exact h2 k
  · intro sr hm
    unfold updateOneSuccessPattern at hm
    by_cases hh : hasSuccess recs ind.pattern
    · rw [if_pos hh] at hm
      rcases mem_updFirstSucc _ _ recs _ hm with h4 | ⟨sr2, h5, h6⟩
      · exact h3 sr h4
      · have hsr : sr = bump_success now sr2 := by simpa using h5
        rw [hsr]
        simpa [bump_success] using h3 sr2 h6
    · rw [if_neg hh] at hm
      rcases List.mem_append.mp hm with h4 | h5
      · exact h3 sr h4
      · have hsr : sr = new_success_record a ind now := by simpa using h5
        rw [hsr]
        rfl

/-- The correlation step preserves the store invariant. -/
theorem storeInv_correlate (cache : List (String × BuildAnalysis)) (a : BuildAnalysis)
    (now : Nat) (recs : List PatternRecord) (h : StoreInv recs) :
    StoreInv (correlate_failure_with_success cache a now recs) := by
  obtain ⟨h1, h2, h3⟩ := h
  refine ⟨?_, ?_, ?_⟩
  · intro k
    have hc := countP_correlate cache a now recs (isFailKey k) (fun cr => by simp [isFailKey])
    simp only [countFail] at h1 ⊢
    rw [hc]
    exact h1 k
  · intro k
    have hc := countP_correlate cache a now recs (isSuccInd k) (fun cr => by simp [isSuccInd])
    simp only [countSuccInd] at h2 ⊢
    rw [hc]
    exact h2 k
  · intro sr hm
    rcases mem_correlate cache a now recs _ hm with h4 | ⟨cr, h5⟩
    · exact h3 sr h4
    · exact absurd h5 (by simp)

/-- The whole error-pattern scan preserves the store invariant. -/
theorem storeInv_foldl_eps (eps : List ErrorPattern) (a : BuildAnalysis) (now : Nat) :
    ∀ recs : List PatternRecord, StoreInv recs →
      StoreInv (eps.foldl (updateOneFailurePattern a now) recs) := by
  induction eps with
  | nil => exact fun recs h => h
  | cons e eps ih => exact fun recs h => ih _ (storeInv_updateOneFailure a now recs e h)

/-- The whole success-indicator scan preserves the store invariant. -/
theorem storeInv_foldl_inds (inds : List SuccessIndicator) (a : BuildAnalysis) (now : Nat) :
    ∀ recs : List PatternRecord, StoreInv recs →
      StoreInv (inds.foldl (updateOneSuccessPattern a now) recs) := by
  induction inds with
  | nil => exact fun recs h => h
  | cons i inds ih => exact fun recs h => ih _ (storeInv_updateOneSuccess a now recs i h)

/-- recordFailure preserves the store invariant. -/
theorem storeInv_update_failure (cache : List (String × BuildAnalysis)) (a : BuildAnalysis)
    (now : Nat) (recs : List PatternRecord) (h : StoreInv recs) :
    StoreInv (update_failure_patterns cache a now recs) :=
  storeInv_correlate cache a now _ (storeInv_foldl_eps a.error_patterns a now recs h)

/-- recordSuccess preserves the store invariant. -/
theorem storeInv_update_success (a : BuildAnalysis) (now : Nat)
    (recs : List PatternRecord) (h : StoreInv recs) :
    StoreInv (update_success_patterns a now recs) :=
  storeInv_foldl_inds (extract_success_indicators a) a now recs h

/-- The batch refresh pass preserves the store invariant: extracted
records carry no type tag and are neither failure nor success records. -/
theorem storeInv_refresh (recs : List PatternRecord) (l : List ExtractedRec)
    (h : StoreInv recs) : StoreInv (recs ++ l.map PatternRecord.extracted) := by
  obtain ⟨h1, h2, h3⟩ := h
  have hzero : ∀ p : PatternRecord → Bool, (∀ er : ExtractedRec, p (.extracted er) = false) →
      (l.map PatternRecord.extracted).countP p = 0 := by
    intro p hp
    rw [List.countP_eq_zero]
    intro r hr
    rcases List.mem_map.mp hr with ⟨er, _, hek⟩
    rw [← hek]
    simp [hp er]
  refine ⟨?_, ?_, ?_⟩
  · intro k
    simp only [countFail, List.countP_append]
    rw [hzero (isFailKey k) (fun er => by simp [isFailKey])]
    simpa using h1 k
  · intro k
    simp only [countSuccInd, List.countP_append]
    rw [hzero (isSuccInd k) (fun er => by simp [isSuccInd])]
    simpa using h2 k
  · intro sr hm
    rcases List.mem_append.mp hm with h4 | h5
    · exact h3 sr h4
    · rcases List.mem_map.mp h5 with ⟨er, _, hek⟩
      exact absurd hek (by simp)

/-- The pruning pass preserves the store invariant. -/
theorem storeInv_cleanup (now : Nat) (recs : List PatternRecord) (h : StoreInv recs) :
    StoreInv (cleanup_patterns now recs) := by
  obtain ⟨h1, h2, h3⟩ := h
  refine ⟨?_, ?_, ?_⟩
  · intro k
    exact le_trans (List.Sublist.countP_le _ (List.filter_sublist recs)) (h1 k)
  · intro k
    exact le_trans (List.Sublist.countP_le _ (List.filter_sublist recs)) (h2 k)
  · intro sr hm
    exact h3 sr (List.mem_filter.mp hm).1

/-- Every store operation preserves the store invariant. -/
theorem storeInv_applyOp (recs : List PatternRecord) (op : StoreOp) (h : StoreInv recs) :
    StoreInv (applyOp recs op) := by
  cases op with
  | recordFailure cache a now => exact storeInv_update_failure cache a now recs h
  | recordSuccess a now => exact storeInv_update_success a now recs h
  | refresh analyses now => exact storeInv_refresh recs _ h
  | cleanup now => exact storeInv_cleanup now recs h

/-- A job entry reachable from the empty store satisfies the invariant. -/
theorem storeInv_applyOps (ops : List StoreOp) : StoreInv (applyOps ops) := by
  have hgen : ∀ recs : List PatternRecord, StoreInv recs →
      StoreInv (ops.foldl applyOp recs) := by
    induction ops with
    | nil => exact fun recs h => h
    | cons op ops ih => exact fun recs h => ih _ (storeInv_applyOp recs op h)
  refine hgen [] ⟨?_, ?_, ?_⟩
  · intro k
    simp [countFail]
  · intro k
    simp [countSuccInd]
  · intro sr hm
    simp at hm

/-- When every success record is keyed by its own indicator, the success
count by pattern key equals the success count by indicator. -/
theorem countSuccPat_eq_countSuccInd (recs : List PatternRecord)
    (h3 : ∀ sr : SuccessRec, PatternRecord.success sr ∈ recs → sr.indicator = sr.pattern)
    (k : String) : countSuccPat recs k = countSuccInd recs k := by
  unfold countSuccPat countSuccInd
  apply List.countP_congr
  intro r hr
  cases r with
  | success sr => simp [isSuccKey, isSuccInd, h3 sr hr]
  | failure fr => simp [isSuccKey, isSuccInd]
  | correlation cr => simp [isSuccKey, isSuccInd]
  | extracted er => simp [isSuccKey, isSuccInd]

-- ============================================================
-- C2
-- ============================================================

/-- C2: after any sequence of pattern-store operations (recordFailure,
recordSuccess, batch refresh, pruning) from the empty job entry, at most
one failure record and at most one success record share any given pattern
key; and a further recordFailure for a key already present updates that
record in place, leaving the number of failure records for the key at
max(old count, 1) instead of inserting a duplicate. -/
theorem C2_at_most_one_per_key (ops : List StoreOp) (k : String)
    (cache : List (String × BuildAnalysis)) (a : BuildAnalysis) (now : Nat) :
    (countFail (applyOps ops) k ≤ 1 ∧ countSuccPat (applyOps ops) k ≤ 1) ∧
    (k ∈ a.error_patterns.map ErrorPattern.pattern →
      countFail (update_failure_patterns cache a now (applyOps ops)) k
        = max (countFail (applyOps ops) k) 1) := by
  obtain ⟨h1, h2, h3⟩ := storeInv_applyOps ops
  refine ⟨⟨h1 k, ?_⟩, ?_⟩
  · rw [countSuccPat_eq_countSuccInd _ h3 k]
    exact h2 k
  · intro hmem
    unfold update_failure_patterns
    have hc := countP_correlate cache a now
      (a.error_patterns.foldl (updateOneFailurePattern a now) (applyOps ops))
      (isFailKey k) (fun cr => by simp [isFailKey])
    have hfold := countFail_foldl_eps a.error_patterns a now (applyOps ops) k
    rw [if_pos hmem] at hfold
    simp only [countFail] at hfold ⊢
    rw [hc]
    exact hfold

/-- C2 witness: one recordFailure from the empty store leaves exactly one
failure record for the key, and a repeat recordFailure keeps the count at
one. -/
theorem C2_at_most_one_per_key_witness :
    (countFail (applyOps [StoreOp.recordFailure [] c8OnceAnalysis 1]) "boom" ≤ 1 ∧
     countSuccPat (applyOps [StoreOp.recordFailure [] c8OnceAnalysis 1]) "boom" ≤ 1) ∧
    countFail (update_failure_patterns [] c8OnceAnalysis 2
        (applyOps [StoreOp.recordFailure [] c8OnceAnalysis 1])) "boom"
      = max (countFail (applyOps [StoreOp.recordFailure [] c8OnceAnalysis 1]) "boom") 1 :=
  ⟨(C2_at_most_one_per_key [StoreOp.recordFailure [] c8OnceAnalysis 1] "boom" [] c8OnceAnalysis 2).1,
   (C2_at_most_one_per_key [StoreOp.recordFailure [] c8OnceAnalysis 1] "boom" [] c8OnceAnalysis 2).2
     (by decide)⟩


-- ============================================================
-- Tracking the first failure record of a key
-- ============================================================

/-- failRecFor distributes over append. -/
theorem failRecFor_append (l1 l2 : List PatternRecord) (k : String) :
    failRecFor (l1 ++ l2) k = (failRecFor l1 k).or (failRecFor l2 k) := by
  simp [failRecFor, List.findSome?_append]

/-- failRecFor finds a record exactly when the existence scan does. -/
theorem failRecFor_isSome_iff (recs : List PatternRecord) (k : String) :
    (failRecFor recs k).isSome = true ↔ hasFailure recs k = true := by
  induction recs with
  | nil => simp [failRecFor, hasFailure]
  | cons r rest ih =>
    cases r with
    | failure fr =>
      by_cases hk : fr.pattern = k
      · simp [failRecFor, hasFailure, List.findSome?_cons, isFailKey, hk]
      · simpa [failRecFor, hasFailure, List.findSome?_cons, List.any_cons, isFailKey, hk]
          using ih
    | success sr =>
      simpa [failRecFor, hasFailure, List.findSome?_cons, List.any_cons, isFailKey] using ih
    | correlation cr =>
      simpa [failRecFor, hasFailure, List.findSome?_cons, List.any_cons, isFailKey] using ih
    | extracted er =>
      simpa [failRecFor, hasFailure, List.findSome?_cons, List.any_cons, isFailKey] using ih

/-- Updating the first record of the same key maps the found record. -/
theorem failRecFor_updFirstFail_same (k : String) (f : FailureRec → FailureRec)
    (hf : ∀ fr : FailureRec, (f fr).pattern = fr.pattern) :
    ∀ recs : List PatternRecord,
      failRecFor (updFirstFail k f recs) k = (failRecFor recs k).map f := by
  intro recs
  induction recs with
  | nil => simp [updFirstFail, failRecFor]
  | cons r rest ih =>
    cases r with
    | failure fr =>
      by_cases hk : fr.pattern = k
      · simp [updFirstFail, hk, failRecFor, List.findSome?_cons, hf]
      · simpa [updFirstFail, hk, failRecFor, List.findSome?_cons, hf] using ih
    | success sr => simpa [updFirstFail, failRecFor, List.findSome?_cons] using ih
    | correlation cr => simpa [updFirstFail, failRecFor, List.findSome?_cons] using ih
    | extracted er => simpa [updFirstFail, failRecFor, List.findSome?_cons] using ih

/-- Updating the first record of a different key leaves the lookup alone. -/
theorem failRecFor_updFirstFail_other (kUpd kQry : String) (f : FailureRec → FailureRec)
    (hne : kQry ≠ kUpd) (hf : ∀ fr : FailureRec, (f fr).pattern = fr.pattern) :
    ∀ recs : List PatternRecord,
      failRecFor (updFirstFail kUpd f recs) kQry = failRecFor recs kQry := by
  intro recs
  induction recs with
  | nil => simp [updFirstFail]
  | cons r rest ih =>
    cases r with
    | failure fr =>
      by_cases hk : fr.pattern = kUpd
      · have hne2 : ¬kUpd = kQry := fun hc => hne hc.symm
        simp [updFirstFail, hk, failRecFor, List.findSome?_cons, hne2, hf]
      · by_cases hq : fr.pattern = kQry
        · simp [updFirstFail, hk, failRecFor, List.findSome?_cons, hq, hne]
        · simpa [updFirstFail, hk, failRecFor, List.findSome?_cons, hq] using ih
    | success sr => simpa [updFirstFail, failRecFor, List.findSome?_cons] using ih
    | correlation cr => simpa [updFirstFail, failRecFor, List.findSome?_cons] using ih
    | extracted er => simpa [updFirstFail, failRecFor, List.findSome?_cons] using ih

/-- The lookup is blind to in-place updates of success records. -/
theorem failRecFor_updFirstSucc (k kQry : String) (f : SuccessRec → SuccessRec) :
    ∀ recs : List PatternRecord,
      failRecFor (updFirstSucc k f recs) kQry = failRecFor recs kQry := by
  intro recs
  induction recs with
  | nil => simp [updFirstSucc]
  | cons r rest ih =>
    cases r with
    | success sr =>
      by_cases hk : sr.indicator = k
      · simp [updFirstSucc, hk, failRecFor, List.findSome?_cons]
      · simpa [updFirstSucc, hk, failRecFor, List.findSome?_cons] using ih
    | failure fr =>
      by_cases hq : fr.pattern = kQry
      · simp [updFirstSucc, failRecFor, List.findSome?_cons, hq]
      · simpa [updFirstSucc, failRecFor, List.findSome?_cons, hq] using ih
    | correlation cr => simpa [updFirstSucc, failRecFor, List.findSome?_cons] using ih
    | extracted er => simpa [updFirstSucc, failRecFor, List.findSome?_cons] using ih

/-- Evolution of the first failure record of a key under one error
pattern: same key is bumped or created, other keys are untouched. -/
theorem failRecFor_updateOne (a : BuildAnalysis) (now : Nat) (recs : List PatternRecord)
    (ep : ErrorPattern) (k : String) :
    failRecFor (updateOneFailurePattern a now recs ep) k =
      if ep.pattern = k then
        (match failRecFor recs k with
         | some fr => some (bump_failure a now fr)
         | none => some (new_failure_record a ep now))
      else failRecFor recs k := by
  unfold updateOneFailurePattern
  by_cases h : hasFailure recs ep.pattern
  · rw [if_pos h]
    by_cases hk : ep.pattern = k
    · subst hk
      rw [failRecFor_updFirstFail_same ep.pattern (bump_failure a now) (fun fr => rfl) recs,
        if_pos rfl]
      cases hfr : failRecFor recs ep.pattern with
      | some fr => simp
      | none =>
        exfalso
        have hi := (failRecFor_isSome_iff recs ep.pattern).mpr h
        rw [hfr] at hi
        simp at hi
    · rw [if_neg hk]
      exact failRecFor_updFirstFail_other ep.pattern k (bump_failure a now)
        (fun hc => hk hc.symm) (fun fr => rfl) recs
  · rw [if_neg h]
    rw [failRecFor_append]
    have hnone : failRecFor recs ep.pattern = none := by
      cases hx : failRecFor recs ep.pattern with
      | none => rfl
      | some fr =>
        exact absurd ((failRecFor_isSome_iff recs ep.pattern).mp (by simp [hx])) h
    by_cases hk : ep.pattern = k
    · subst hk
      rw [hnone, if_pos rfl]
      simp [failRecFor, List.findSome?_cons, new_failure_record]
    · rw [if_neg hk]
      have hsingle : failRecFor [PatternRecord.failure (new_failure_record a ep now)] k = none := by
        simp [failRecFor, List.findSome?_cons, new_failure_record, hk]
      rw [hsingle, Option.or_none]

/-- The correlation step never changes the first failure record of a key. -/
theorem failRecFor_correlate (cache : List (String × BuildAnalysis)) (a : BuildAnalysis)
    (now : Nat) (recs : List PatternRecord) (k : String) :
    failRecFor (correlate_failure_with_success cache a now recs) k = failRecFor recs k := by
  unfold correlate_failure_with_success
  cases hfs : findLatestSuccess cache a with
  | none => rfl
  | some best =>
    by_cases hd : (compare_build_parameters a.build_info.parameters best.build_info.parameters).isEmpty = true
    · simp [hd]
    · rw [Bool.not_eq_true] at hd
      simp only [hd, Bool.false_eq_true, if_false]
      rw [failRecFor_append]
      have hsingle : ∀ cr : CorrelationRec, failRecFor [PatternRecord.correlation cr] k = none := by
        intro cr
        simp [failRecFor, List.findSome?_cons]
      rw [hsingle, Option.or_none]

-- ============================================================
-- The bounded context list
-- ============================================================

/-- The truncated list holds at most n entries. -/
theorem pyTakeLast_length_le {α : Type} (n : Nat) (l : List α) :
    (pyTakeLast n l).length ≤ n := by
  simp only [pyTakeLast, List.length_drop]
  omega

/-- Truncation keeps a short list whole. -/
theorem pyTakeLast_eq_of_le {α : Type} (n : Nat) (l : List α) (h : l.length ≤ n) :
    pyTakeLast n l = l := by
  simp [pyTakeLast, Nat.sub_eq_zero_of_le h]

/-- Truncating, appending one entry and truncating again equals appending
then truncating: the bounded list always holds the most recent entries. -/
theorem pyTakeLast_append_singleton {α : Type} (l : List α) (c : α) :
    pyTakeLast 10 (pyTakeLast 10 l ++ [c]) = pyTakeLast 10 (l ++ [c]) := by
  by_cases h : l.length ≤ 10
  · rw [pyTakeLast_eq_of_le 10 l h]
  · have h10 : 10 ≤ l.length := by omega
    have hlen : (pyTakeLast 10 l).length = 10 := by
      simp only [pyTakeLast, List.length_drop]
      omega
    show (pyTakeLast 10 l ++ [c]).drop ((pyTakeLast 10 l ++ [c]).length - 10)
        = (l ++ [c]).drop ((l ++ [c]).length - 10)
    have hL1 : (pyTakeLast 10 l ++ [c]).length - 10 = 1 := by
      rw [List.length_append, hlen, List.length_singleton]
    have hL2 : (l ++ [c]).length - 10 = (l.length - 10) + 1 := by
      rw [List.length_append, List.length_singleton]
      omega
    rw [hL1, hL2, List.drop_append_eq_append_drop, List.drop_append_eq_append_drop]
    have e1 : (1 : Nat) - (pyTakeLast 10 l).length = 0 := by
      rw [hlen]
    have e2 : (l.length - 10 + 1) - l.length = 0 := by omega
    rw [e1, e2]
    simp only [List.drop_zero]
    congr 1
    simp only [pyTakeLast]
    rw [List.drop_drop]

/-- One context insertion advances the expected bounded list. -/
theorem ctxStep_ctxsFold (h : List FailCtx) (c : FailCtx) :
    ctxStep c (ctxsFold h) = ctxsFold (h ++ [c]) := by
  cases h with
  | nil =>
    show some [c] = some (pyTakeLast 10 [c])
    rw [pyTakeLast_eq_of_le 10 [c] (by simp)]
  | cons x xs =>
    simp only [List.cons_append, ctxsFold, ctxStep]
    rw [← List.cons_append, pyTakeLast_append_singleton]

/-- A run of context insertions advances the expected bounded list by the
whole inserted segment. -/
theorem foldl_ctxStep_ctxsFold (cs : List FailCtx) : ∀ h : List FailCtx,
    cs.foldl (fun o c => ctxStep c o) (ctxsFold h) = ctxsFold (h ++ cs) := by
  induction cs with
  | nil =>
    intro h
    simp
  | cons c cs ih =>
    intro h
    rw [List.foldl_cons, ctxStep_ctxsFold, ih]
    congr 1
    simp

/-- Context evolution across the error-pattern scan of one recordFailure. -/
theorem ctxs_foldl_eps (eps : List ErrorPattern) (a : BuildAnalysis) (now : Nat) :
    ∀ (recs : List PatternRecord) (k : String),
      (failRecFor (eps.foldl (updateOneFailurePattern a now) recs) k).map FailureRec.contexts
        = (ctxsOfEps k a eps).foldl (fun o c => ctxStep c o)
            ((failRecFor recs k).map FailureRec.contexts) := by
  induction eps with
  | nil =>
    intro recs k
    simp [ctxsOfEps]
  | cons e eps ih =>
    intro recs k
    rw [List.foldl_cons, ih]
    by_cases he : e.pattern = k
    · have hofe : ctxsOfEps k a (e :: eps) = mkContextEntry a :: ctxsOfEps k a eps := by
        simp [ctxsOfEps, List.filterMap_cons, he]
      rw [hofe, List.foldl_cons]
      congr 1
      rw [failRecFor_updateOne, if_pos he]
      cases hfr : failRecFor recs k with
      | none => simp [ctxStep, new_failure_record]
      | some fr => simp [ctxStep, bump_failure]
    · have hofe : ctxsOfEps k a (e :: eps) = ctxsOfEps k a eps := by
        simp [ctxsOfEps, List.filterMap_cons, he]
      rw [hofe]
      congr 1
      rw [failRecFor_updateOne, if_neg he]

/-- Context evolution across one full recordFailure invocation. -/
theorem ctxs_applyRF (recs : List PatternRecord) (op : RFOp) (k : String) :
    (failRecFor (applyRF recs op) k).map FailureRec.contexts
      = (ctxsOf k op.a).foldl (fun o c => ctxStep c o)
          ((failRecFor recs k).map FailureRec.contexts) := by
  unfold applyRF update_failure_patterns
  rw [failRecFor_correlate]
  exact ctxs_foldl_eps op.a.error_patterns op.a op.now recs k

/-- Context evolution across a sequence of recordFailure invocations. -/
theorem ctxs_foldl_ops (ops : List RFOp) (k : String) :
    ∀ (recs : List PatternRecord) (h : List FailCtx),
      (failRecFor recs k).map FailureRec.contexts = ctxsFold h →
      (failRecFor (ops.foldl applyRF recs) k).map FailureRec.contexts
        = ctxsFold (h ++ ctxHistory k ops) := by
  induction ops with
  | nil =>
    intro recs h hrel
    simpa [ctxHistory] using hrel
  | cons op ops ih =>
    intro recs h hrel
    rw [List.foldl_cons]
    have hstep : (failRecFor (applyRF recs op) k).map FailureRec.contexts
        = ctxsFold (h ++ ctxsOf k op.a) := by
      rw [ctxs_applyRF, hrel, foldl_ctxStep_ctxsFold]
    rw [ih (applyRF recs op) (h ++ ctxsOf k op.a) hstep]
    congr 1
    simp [ctxHistory, List.flatten_cons, List.append_assoc]

-- ============================================================
-- C7
-- ============================================================

/-- C7: after any sequence of recordFailure invocations from the empty
job entry, the failure record of a key holds exactly the most recent 10
context entries of its insertion history, in insertion order, and never
more than 10 entries. -/
theorem C7_contexts_bounded (ops : List RFOp) (k : String) (fr : FailureRec)
    (hfr : failRecFor (ops.foldl applyRF []) k = some fr) :
    fr.contexts = pyTakeLast 10 (ctxHistory k ops) ∧ fr.contexts.length ≤ 10 := by
  have hbase : (failRecFor ([] : List PatternRecord) k).map FailureRec.contexts
      = ctxsFold [] := by
    simp [failRecFor, ctxsFold]
  have h := ctxs_foldl_ops ops k [] [] hbase
  rw [hfr] at h
  simp only [List.nil_append, Option.map_some'] at h
  cases hh : ctxHistory k ops with
  | nil =>
    rw [hh] at h
    simp [ctxsFold] at h
  | cons x xs =>
    rw [hh] at h
    simp only [ctxsFold] at h
    have hctx : fr.contexts = pyTakeLast 10 (x :: xs) := by simpa using h
    refine ⟨hctx, ?_⟩
    rw [hctx]
    exact pyTakeLast_length_le 10 _

/-- C7 witness: after twelve repeat observations the record holds exactly
the ten most recent context entries. -/
theorem C7_contexts_bounded_witness :
    failRecFor (c7Ops.foldl applyRF []) "p" = some c7FinalRec ∧
    (c7FinalRec.contexts = pyTakeLast 10 (ctxHistory "p" c7Ops) ∧
     c7FinalRec.contexts.length ≤ 10) :=
  ⟨by decide, C7_contexts_bounded c7Ops "p" c7FinalRec (by decide)⟩

-- ============================================================
-- C8
-- ============================================================

/-- The frequency of the first failure record of a key grows by the
number of occurrences of the key in the processed error patterns. -/
theorem failFreqD_foldl_eps (eps : List ErrorPattern) (a : BuildAnalysis) (now : Nat) :
    ∀ (recs : List PatternRecord) (k : String),
      failFreqD (eps.foldl (updateOneFailurePattern a now) recs) k
        = failFreqD recs k + (eps.map ErrorPattern.pattern).count k := by
  induction eps with
  | nil =>
    intro recs k
    simp
  | cons e eps ih =>
    intro recs k
    rw [List.foldl_cons, ih, List.map_cons, List.count_cons]
    by_cases he : e.pattern = k
    · have hone : failFreqD (updateOneFailurePattern a now recs e) k = failFreqD recs k + 1 := by
        unfold failFreqD
        rw [failRecFor_updateOne, if_pos he]
        cases hfr : failRecFor recs k with
        | none => simp [new_failure_record]
        | some fr => simp [bump_failure]
      rw [hone]
      simp only [he, beq_self_eq_true, if_true]
      omega
    · have hone : failFreqD (updateOneFailurePattern a now recs e) k = failFreqD recs k := by
        unfold failFreqD
        rw [failRecFor_updateOne, if_neg he]
      rw [hone]
      have hb : (e.pattern == k) = false := beq_eq_false_iff_ne.mpr he
      simp only [hb, Bool.false_eq_true, if_false]
      omega

/-- The correlation step never changes the frequency of a failure record. -/
theorem failFreqD_correlate (cache : List (String × BuildAnalysis)) (a : BuildAnalysis)
    (now : Nat) (recs : List PatternRecord) (k : String) :
    failFreqD (correlate_failure_with_success cache a now recs) k = failFreqD recs k := by
  unfold failFreqD
  rw [failRecFor_correlate]

/-- One recordFailure adds the per-analysis occurrence count of a key to
the frequency of the failure record of that key. -/
theorem failFreqD_update_failure_patterns (cache : List (String × BuildAnalysis))
    (a : BuildAnalysis) (now : Nat) (recs : List PatternRecord) (k : String) :
    failFreqD (update_failure_patterns cache a now recs) k
      = failFreqD recs k + (a.error_patterns.map ErrorPattern.pattern).count k := by
  unfold update_failure_patterns
  rw [failFreqD_correlate, failFreqD_foldl_eps]

/-- One recordFailure takes the number of failure records of a mentioned
key to max(old count, 1). -/
theorem countFail_update_failure_patterns (cache : List (String × BuildAnalysis))
    (a : BuildAnalysis) (now : Nat) (recs : List PatternRecord) (k : String)
    (hmem : k ∈ a.error_patterns.map ErrorPattern.pattern) :
    countFail (update_failure_patterns cache a now recs) k = max (countFail recs k) 1 := by
  unfold update_failure_patterns
  have hc := countP_correlate cache a now
    (a.error_patterns.foldl (updateOneFailurePattern a now) recs)
    (isFailKey k) (fun cr => by simp [isFailKey])
  have hfold := countFail_foldl_eps a.error_patterns a now recs k
  rw [if_pos hmem] at hfold
  simp only [countFail] at hfold ⊢
  rw [hc]
  exact hfold

/-- C8 counterexample: for an analysis whose error patterns list the same
key twice, two identical recordFailure calls from the empty store leave
the frequency at 4, not incremented by exactly 2 as the claim states. -/
theorem C8_duplicate_key_counterexample :
    failFreqD (update_failure_patterns [] c8DupAnalysis 2
        (update_failure_patterns [] c8DupAnalysis 1 [])) "boom" = 4 ∧
    ¬ failFreqD (update_failure_patterns [] c8DupAnalysis 2
        (update_failure_patterns [] c8DupAnalysis 1 [])) "boom"
      = failFreqD ([] : List PatternRecord) "boom" + 2 := by
  constructor
  · decide
  · decide

/-- C8 as amended: for every pattern store state and every analysis whose
error patterns mention a key exactly once, invoking recordFailure twice
with that identical analysis increments the frequency of the matching
failure record by exactly 2 relative to the baseline, and leaves the
number of failure records for the key at max(old count, 1): no duplicate
record is created.  (In general the increment per call is the occurrence
count of the key in the error patterns.) -/
theorem C8_double_record (st : List PatternRecord)
    (cache1 cache2 : List (String × BuildAnalysis)) (a : BuildAnalysis)
    (now1 now2 : Nat) (k : String)
    (hocc : (a.error_patterns.map ErrorPattern.pattern).count k = 1) :
    failFreqD (update_failure_patterns cache2 a now2
        (update_failure_patterns cache1 a now1 st)) k
      = failFreqD st k + 2 ∧
    countFail (update_failure_patterns cache2 a now2
        (update_failure_patterns cache1 a now1 st)) k
      = max (countFail st k) 1 := by
  have hmem : k ∈ a.error_patterns.map ErrorPattern.pattern :=
    List.count_pos_iff.mp (by omega)
  constructor
  · rw [failFreqD_update_failure_patterns, failFreqD_update_failure_patterns, hocc]
  · rw [countFail_update_failure_patterns _ _ _ _ _ hmem,
      countFail_update_failure_patterns _ _ _ _ _ hmem]
    omega

/-- C8 witness: two identical recordFailure calls with a single-occurrence
key, from the empty store, give frequency 2 and a single record. -/
theorem C8_double_record_witness :
    failFreqD (update_failure_patterns [] c8OnceAnalysis 2
        (update_failure_patterns [] c8OnceAnalysis 1 [])) "boom"
      = failFreqD ([] : List PatternRecord) "boom" + 2 ∧
    countFail (update_failure_patterns [] c8OnceAnalysis 2
        (update_failure_patterns [] c8OnceAnalysis 1 [])) "boom"
      = max (countFail ([] : List PatternRecord) "boom") 1 :=
  C8_double_record [] [] [] c8OnceAnalysis 1 2 "boom" (by decide)

-- ============================================================
-- C4
-- ============================================================

/-- The console log with four FAIL lines yields four plain-string test
entries, all naming package pkg.A tests, and no dict entries. -/
theorem analyze_test_failures_c4Log :
    (analyze_test_failures c4Log).failed_tests
      = [PyTest.str "pkg.A.t1", PyTest.str "pkg.A.t2",
         PyTest.str "pkg.A.t3", PyTest.str "pkg.A.t4"] := by
  decide

/-- The branch handle_test_failures was written for: four dict-shaped
tests of one package produce the single environmental action. -/
theorem handle_test_failures_environmental_intent :
    handle_test_failures c4DictTests
      = Except.ok "Multiple failures in pkg.A - checking environment" := by
  rfl

/-- C4: the claim states that a failing analysis whose console log yields
4 failing tests in package pkg.A and which matches one stored pattern
produces both a pattern_match action and a single environmental
test-handling action.  On the code, analyze_test_failures returns the
failed tests as plain strings, and handle_test_failures immediately calls
the dict method get on each of them, raising AttributeError: at the
failing input the ledger holds only the pattern_match entry, no
test_failure entry and no environmental action, and the exception
propagates (for every possible output of the dependency and compilation
analyzers, which are consulted only later). -/
theorem C4_environmental_branch_crashes (dep comp : String → List Issue) :
    handle_failure dep comp [PatternRecord.failure c4StoredRec] c4Analysis 7
      = ([{ atype := "pattern_match", timestamp := 7, pattern := some "known boom"
            action := some "No known solution" }],
         Except.error PyErr.attributeError) := by
  rfl
